import Mathlib

/-!
# Vaccine sorting gateway: data model, configuration loading and server wiring

A shallow embedding of `backend/go-gateway`:

* `internal/model/models.go`  : the persisted records (`Vaccine`, `Channel`, `Inventory`,
  `Order`, `OrderItem`, `Trace`, `Alarm`) as Lean structures, together with a table of their
  field declarations (Go type and gorm options) so that statements about zero values, column
  defaults and the presence of a field can be made;
* `internal/config/config.go` : `Config` and `Load`, over an explicit state for the
  process-wide viper instance;
* `cmd/server/main.go`        : the start-up sequence, the registered HTTP routes and the wiring
  of handlers, services and repositories.

The `service`, `handler` and `repository` packages are not part of the sources; what the
statements need of them (allocation planner, order life cycle, dispense commit, trace recorder,
alarm handling) is modelled from the specification and marked as such.

Conventions: `uint` is `Nat`; `int` and `int8` are `Int` (no arithmetic here can overflow);
`time.Time` is an `Int` instant, its zero value being `0`; `float64` columns, which no
statement below computes with, are carried as rationals; a Go pointer is an `Option`.
-/

namespace Avits

/-! ## `internal/model/models.go`: record types -/

/-- Record `Vaccine` (models.go, lines 9 to 27). -/
structure Vaccine where
  ID : Nat
  Code : String
  Name : String
  CommonName : String
  Manufacturer : String
  Specification : String
  Unit : String
  StorageTempMin : ℚ
  StorageTempMax : ℚ
  Category : String
  DoseCount : Int
  ApplicableAge : String
  Status : Int
  CreatedAt : Int
  UpdatedAt : Int
  DeletedAt : Option Int
  deriving DecidableEq, Repr

/-- Record `Channel` (models.go, lines 29 to 43). `Status`: 1 normal, 2 faulted, 0 disabled. -/
structure Channel where
  ID : Nat
  Position : String
  RowIndex : String
  ColIndex : Int
  VaccineID : Option Nat
  Vaccine : Option Vaccine
  Capacity : Int
  Quantity : Int
  Status : Int
  LastOutbound : Option Int
  CreatedAt : Int
  UpdatedAt : Int
  deriving DecidableEq, Repr

/-- Record `Inventory` (models.go, lines 45 to 67). `Status`: 1 in stock, 2 out of stock,
3 scrapped. -/
structure Inventory where
  ID : Nat
  VaccineID : Nat
  Vaccine : Vaccine
  BatchNo : String
  TraceCode : String
  ProductionDate : Option Int
  ExpiryDate : Int
  ChannelID : Option Nat
  Channel : Option Channel
  Quantity : Int
  Status : Int
  InboundTime : Int
  OutboundTime : Option Int
  InboundTemp : Option ℚ
  OperatorID : Option Nat
  Supplier : String
  PurchaseOrder : String
  CreatedAt : Int
  UpdatedAt : Int
  DeletedAt : Option Int
  deriving DecidableEq, Repr

/-- Record `OrderItem` (models.go, lines 93 to 107). -/
structure OrderItem where
  ID : Nat
  OrderID : Nat
  InventoryID : Nat
  Inventory : Inventory
  TraceCode : String
  ChannelID : Option Nat
  BatchNo : String
  OutboundTemp : Option ℚ
  VisionVerified : Bool
  VisionImage : String
  OutboundTime : Int
  CreatedAt : Int
  deriving DecidableEq, Repr

/-- Record `Order` (models.go, lines 69 to 91). `Priority`: 1 normal, 2 urgent. `Status`:
0 pending, 1 processing, 2 completed, 3 cancelled, 4 exception. -/
structure Order where
  ID : Nat
  OrderNo : String
  HISOrderID : String
  PatientID : String
  PatientName : String
  VaccineID : Nat
  Vaccine : Vaccine
  Quantity : Int
  DoseNumber : Int
  Priority : Int
  Status : Int
  ErrorMessage : String
  ReceiveTime : Int
  StartTime : Option Int
  CompleteTime : Option Int
  OperatorID : Option Nat
  Items : List OrderItem
  CreatedAt : Int
  UpdatedAt : Int
  DeletedAt : Option Int
  deriving DecidableEq, Repr

/-- Record `Trace` (models.go, lines 109 to 124). `Operation` is one of INBOUND, OUTBOUND,
TRANSFER, SCRAP. -/
structure Trace where
  ID : Nat
  TraceCode : String
  InventoryID : Option Nat
  Operation : String
  OperationName : String
  FromLocation : String
  ToLocation : String
  Temperature : Option ℚ
  OperatorID : Option Nat
  OperatorName : String
  Remark : String
  OperatedAt : Int
  CreatedAt : Int
  deriving DecidableEq, Repr

/-- Record `Alarm` (models.go, lines 126 to 144). `Level`: 1 info, 2 warning, 3 severe,
4 critical. `Status`: 0 open, 1 handling, 2 handled, 3 ignored. -/
structure Alarm where
  ID : Nat
  AlarmCode : String
  AlarmType : String
  Level : Int
  Source : String
  SourceID : Option Nat
  Message : String
  Status : Int
  HandledBy : Option Nat
  HandledAt : Option Int
  HandleResult : String
  Notified : Bool
  NotifyTime : Option Int
  AlarmTime : Int
  CreatedAt : Int
  UpdatedAt : Int
  deriving DecidableEq, Repr

/-! ## Allocation planner -/

/-- One entry of an allocation plan: the inventory unit to dispense and its channel. -/
structure PlanEntry where
  inventoryUnitID : Nat
  channelID : Nat
  deriving DecidableEq, Repr

/-- Planning failures. -/
inductive PlanError where
  | InsufficientStock
  deriving DecidableEq, Repr

/-- Modelled from the spec: the eligibility test of the allocation planner, which lives in the
`service` package. A unit is eligible when it is in stock (status 1), of the requested vaccine,
not yet expired, and bound to a channel that is normal (status 1) and holds stock. -/
def eligible (now : Int) (vaccineID : Nat) (channels : List Channel) (u : Inventory) : Bool :=
  decide (u.Status = 1) && decide (u.VaccineID = vaccineID) && decide (now < u.ExpiryDate) &&
    (match u.ChannelID with
     | none => false
     | some cid =>
       match channels.find? (fun c => decide (c.ID = cid)) with
       | none => false
       | some c => decide (c.Status = 1) && decide (0 < c.Quantity))

/-- The FEFO order: expiry date ascending, ties broken by id ascending. -/
def fefoLE (a b : Inventory) : Prop :=
  a.ExpiryDate < b.ExpiryDate ∨ (a.ExpiryDate = b.ExpiryDate ∧ a.ID ≤ b.ID)

instance fefoLE_decidable : DecidableRel fefoLE := fun a b => by
  unfold fefoLE
  exact inferInstance

instance fefoLE_total : IsTotal Inventory fefoLE where
  total a b := by
    unfold fefoLE
    rcases lt_trichotomy a.ExpiryDate b.ExpiryDate with h | h | h
    · exact Or.inl (Or.inl h)
    · rcases Nat.le_total a.ID b.ID with h2 | h2
      · exact Or.inl (Or.inr ⟨h, h2⟩)
      · exact Or.inr (Or.inr ⟨h.symm, h2⟩)
    · exact Or.inr (Or.inl h)

instance fefoLE_trans : IsTrans Inventory fefoLE where
  trans a b c := by
    unfold fefoLE
    rintro (h1 | ⟨h1, h1'⟩) (h2 | ⟨h2, h2'⟩)
    · exact Or.inl (lt_trans h1 h2)
    · exact Or.inl (h2 ▸ h1)
    · exact Or.inl (h1 ▸ h2)
    · exact Or.inr ⟨h1.trans h2, Nat.le_trans h1' h2'⟩

/-- The plan entry of a selected unit. -/
def PlanEntry.ofUnit (u : Inventory) : PlanEntry :=
  { inventoryUnitID := u.ID, channelID := u.ChannelID.getD 0 }

/-- The eligible units of a snapshot in FEFO order. -/
def eligibleSorted (now : Int) (vaccineID : Nat) (units : List Inventory)
    (channels : List Channel) : List Inventory :=
  (units.filter (eligible now vaccineID channels)).insertionSort fefoLE

/-- Modelled from the spec: the allocation planner of the `service` package. It reads a snapshot
(`units`, `channels`), sorts the eligible units in FEFO order and takes units until the requested
quantity is met; with fewer eligible units than requested it fails with `InsufficientStock`.
The priority of the order is an input that does not influence the selection. -/
def planAllocation (now : Int) (vaccineID : Nat) (quantity : Nat) (_priority : Int)
    (units : List Inventory) (channels : List Channel) : Except PlanError (List PlanEntry) :=
  let sorted := eligibleSorted now vaccineID units channels
  if sorted.length < quantity then .error .InsufficientStock
  else .ok ((sorted.take quantity).map PlanEntry.ofUnit)

/-! ## `internal/model/models.go`: field declarations -/

/-- Go types occurring in the record declarations. -/
inductive GoType where
  | uint
  | int
  | int8
  | string
  | bool
  | float64
  | time
  | deletedAt
  | ptr (t : GoType)
  | struct (name : String)
  | slice (t : GoType)
  deriving DecidableEq, Repr

/-- Values of scalar columns, `nil` for a nil pointer or an unset `gorm.DeletedAt`, `zero` for
the zero value of a struct or time, and `currentTimestamp` for the SQL default of that name. -/
inductive GoVal where
  | int (n : Int)
  | bool (b : Bool)
  | str (s : String)
  | nil
  | zero
  | currentTimestamp
  deriving DecidableEq, Repr

/-- Options of a `gorm` struct tag. Decimal defaults keep their text (`2.00`, `8.00`). -/
inductive GormOpt where
  | primaryKey
  | uniqueIndex
  | index
  | size (n : Nat)
  | notNull
  | default (v : GoVal)
  | defaultDecimal (text : String)
  | foreignKey (field : String)
  | typeText
  deriving DecidableEq, Repr

/-- One field of a record declaration. -/
structure FieldDecl where
  name : String
  type : GoType
  gorm : List GormOpt
  json : String
  deriving DecidableEq, Repr

/-- Fields of `Vaccine`. -/
def vaccineFields : List FieldDecl :=
  [ ⟨"ID", .uint, [.primaryKey], "id"⟩,
    ⟨"Code", .string, [.uniqueIndex, .size 50, .notNull], "code"⟩,
    ⟨"Name", .string, [.size 100, .notNull], "name"⟩,
    ⟨"CommonName", .string, [.size 100], "common_name"⟩,
    ⟨"Manufacturer", .string, [.size 100, .notNull], "manufacturer"⟩,
    ⟨"Specification", .string, [.size 50], "specification"⟩,
    ⟨"Unit", .string, [.size 20, .default (.str "支")], "unit"⟩,
    ⟨"StorageTempMin", .float64, [.defaultDecimal "2.00"], "storage_temp_min"⟩,
    ⟨"StorageTempMax", .float64, [.defaultDecimal "8.00"], "storage_temp_max"⟩,
    ⟨"Category", .string, [.size 50], "category"⟩,
    ⟨"DoseCount", .int, [.default (.int 1)], "dose_count"⟩,
    ⟨"ApplicableAge", .string, [.size 100], "applicable_age"⟩,
    ⟨"Status", .int8, [.default (.int 1)], "status"⟩,
    ⟨"CreatedAt", .time, [], "created_at"⟩,
    ⟨"UpdatedAt", .time, [], "updated_at"⟩,
    ⟨"DeletedAt", .deletedAt, [.index], "-"⟩ ]

/-- Fields of `Channel`. -/
def channelFields : List FieldDecl :=
  [ ⟨"ID", .uint, [.primaryKey], "id"⟩,
    ⟨"Position", .string, [.uniqueIndex, .size 10, .notNull], "position"⟩,
    ⟨"RowIndex", .string, [.size 1, .notNull], "row_index"⟩,
    ⟨"ColIndex", .int, [.notNull], "col_index"⟩,
    ⟨"VaccineID", .ptr .uint, [], "vaccine_id"⟩,
    ⟨"Vaccine", .ptr (.struct "Vaccine"), [.foreignKey "VaccineID"], "vaccine,omitempty"⟩,
    ⟨"Capacity", .int, [.default (.int 20)], "capacity"⟩,
    ⟨"Quantity", .int, [.default (.int 0)], "quantity"⟩,
    ⟨"Status", .int8, [.default (.int 1)], "status"⟩,
    ⟨"LastOutbound", .ptr .time, [], "last_outbound"⟩,
    ⟨"CreatedAt", .time, [], "created_at"⟩,
    ⟨"UpdatedAt", .time, [], "updated_at"⟩ ]

/-- Fields of `Inventory`. -/
def inventoryFields : List FieldDecl :=
  [ ⟨"ID", .uint, [.primaryKey], "id"⟩,
    ⟨"VaccineID", .uint, [.notNull], "vaccine_id"⟩,
    ⟨"Vaccine", .struct "Vaccine", [.foreignKey "VaccineID"], "vaccine,omitempty"⟩,
    ⟨"BatchNo", .string, [.size 50, .notNull], "batch_no"⟩,
    ⟨"TraceCode", .string, [.uniqueIndex, .size 30], "trace_code"⟩,
    ⟨"ProductionDate", .ptr .time, [], "production_date"⟩,
    ⟨"ExpiryDate", .time, [.notNull], "expiry_date"⟩,
    ⟨"ChannelID", .ptr .uint, [], "channel_id"⟩,
    ⟨"Channel", .ptr (.struct "Channel"), [.foreignKey "ChannelID"], "channel,omitempty"⟩,
    ⟨"Quantity", .int, [.default (.int 1)], "quantity"⟩,
    ⟨"Status", .int8, [.default (.int 1)], "status"⟩,
    ⟨"InboundTime", .time, [.default .currentTimestamp], "inbound_time"⟩,
    ⟨"OutboundTime", .ptr .time, [], "outbound_time"⟩,
    ⟨"InboundTemp", .ptr .float64, [], "inbound_temp"⟩,
    ⟨"OperatorID", .ptr .uint, [], "operator_id"⟩,
    ⟨"Supplier", .string, [.size 100], "supplier"⟩,
    ⟨"PurchaseOrder", .string, [.size 50], "purchase_order"⟩,
    ⟨"CreatedAt", .time, [], "created_at"⟩,
    ⟨"UpdatedAt", .time, [], "updated_at"⟩,
    ⟨"DeletedAt", .deletedAt, [.index], "-"⟩ ]

/-- Fields of `Order`. -/
def orderFields : List FieldDecl :=
  [ ⟨"ID", .uint, [.primaryKey], "id"⟩,
    ⟨"OrderNo", .string, [.uniqueIndex, .size 30, .notNull], "order_no"⟩,
    ⟨"HISOrderID", .string, [.size 50], "his_order_id"⟩,
    ⟨"PatientID", .string, [.size 50], "patient_id"⟩,
    ⟨"PatientName", .string, [.size 50], "patient_name"⟩,
    ⟨"VaccineID", .uint, [.notNull], "vaccine_id"⟩,
    ⟨"Vaccine", .struct "Vaccine", [.foreignKey "VaccineID"], "vaccine,omitempty"⟩,
    ⟨"Quantity", .int, [.default (.int 1)], "quantity"⟩,
    ⟨"DoseNumber", .int, [.default (.int 1)], "dose_number"⟩,
    ⟨"Priority", .int8, [.default (.int 1)], "priority"⟩,
    ⟨"Status", .int8, [.default (.int 0)], "status"⟩,
    ⟨"ErrorMessage", .string, [.typeText], "error_message"⟩,
    ⟨"ReceiveTime", .time, [.default .currentTimestamp], "receive_time"⟩,
    ⟨"StartTime", .ptr .time, [], "start_time"⟩,
    ⟨"CompleteTime", .ptr .time, [], "complete_time"⟩,
    ⟨"OperatorID", .ptr .uint, [], "operator_id"⟩,
    ⟨"Items", .slice (.struct "OrderItem"), [.foreignKey "OrderID"], "items,omitempty"⟩,
    ⟨"CreatedAt", .time, [], "created_at"⟩,
    ⟨"UpdatedAt", .time, [], "updated_at"⟩,
    ⟨"DeletedAt", .deletedAt, [.index], "-"⟩ ]

/-- Fields of `OrderItem`. -/
def orderItemFields : List FieldDecl :=
  [ ⟨"ID", .uint, [.primaryKey], "id"⟩,
    ⟨"OrderID", .uint, [.notNull], "order_id"⟩,
    ⟨"InventoryID", .uint, [.notNull], "inventory_id"⟩,
    ⟨"Inventory", .struct "Inventory", [.foreignKey "InventoryID"], "inventory,omitempty"⟩,
    ⟨"TraceCode", .string, [.size 30, .notNull], "trace_code"⟩,
    ⟨"ChannelID", .ptr .uint, [], "channel_id"⟩,
    ⟨"BatchNo", .string, [.size 50], "batch_no"⟩,
    ⟨"OutboundTemp", .ptr .float64, [], "outbound_temp"⟩,
    ⟨"VisionVerified", .bool, [.default (.bool false)], "vision_verified"⟩,
    ⟨"VisionImage", .string, [.size 200], "vision_image"⟩,
    ⟨"OutboundTime", .time, [.default .currentTimestamp], "outbound_time"⟩,
    ⟨"CreatedAt", .time, [], "created_at"⟩ ]

/-- Fields of `Trace`. -/
def traceFields : List FieldDecl :=
  [ ⟨"ID", .uint, [.primaryKey], "id"⟩,
    ⟨"TraceCode", .string, [.index, .size 30, .notNull], "trace_code"⟩,
    ⟨"InventoryID", .ptr .uint, [], "inventory_id"⟩,
    ⟨"Operation", .string, [.size 20, .notNull], "operation"⟩,
    ⟨"OperationName", .string, [.size 50], "operation_name"⟩,
    ⟨"FromLocation", .string, [.size 50], "from_location"⟩,
    ⟨"ToLocation", .string, [.size 50], "to_location"⟩,
    ⟨"Temperature", .ptr .float64, [], "temperature"⟩,
    ⟨"OperatorID", .ptr .uint, [], "operator_id"⟩,
    ⟨"OperatorName", .string, [.size 50], "operator_name"⟩,
    ⟨"Remark", .string, [.typeText], "remark"⟩,
    ⟨"OperatedAt", .time, [.default .currentTimestamp], "operated_at"⟩,
    ⟨"CreatedAt", .time, [], "created_at"⟩ ]

/-- Fields of `Alarm`. -/
def alarmFields : List FieldDecl :=
  [ ⟨"ID", .uint, [.primaryKey], "id"⟩,
    ⟨"AlarmCode", .string, [.size 20, .notNull], "alarm_code"⟩,
    ⟨"AlarmType", .string, [.size 50, .notNull], "alarm_type"⟩,
    ⟨"Level", .int8, [.notNull], "level"⟩,
    ⟨"Source", .string, [.size 50], "source"⟩,
    ⟨"SourceID", .ptr .uint, [], "source_id"⟩,
    ⟨"Message", .string, [.typeText, .notNull], "message"⟩,
    ⟨"Status", .int8, [.default (.int 0)], "status"⟩,
    ⟨"HandledBy", .ptr .uint, [], "handled_by"⟩,
    ⟨"HandledAt", .ptr .time, [], "handled_at"⟩,
    ⟨"HandleResult", .string, [.typeText], "handle_result"⟩,
    ⟨"Notified", .bool, [.default (.bool false)], "notified"⟩,
    ⟨"NotifyTime", .ptr .time, [], "notify_time"⟩,
    ⟨"AlarmTime", .time, [.default .currentTimestamp], "alarm_time"⟩,
    ⟨"CreatedAt", .time, [], "created_at"⟩,
    ⟨"UpdatedAt", .time, [], "updated_at"⟩ ]

/-- Look a field declaration up by its Go name. -/
def findField (fields : List FieldDecl) (name : String) : Option FieldDecl :=
  fields.find? (fun f => f.name == name)

/-- Whether a record type declares a field of that name. -/
def hasField (fields : List FieldDecl) (name : String) : Bool :=
  (findField fields name).isSome

/-- The zero value of a Go type; the zero of `float64` is the number 0. -/
def zeroValue : GoType → GoVal
  | .uint => .int 0
  | .int => .int 0
  | .int8 => .int 0
  | .string => .str ""
  | .bool => .bool false
  | .float64 => .int 0
  | .time => .zero
  | .deletedAt => .nil
  | .ptr _ => .nil
  | .struct _ => .zero
  | .slice _ => .nil

/-- The declared column default of a field, when it has one that is not a decimal. -/
def columnDefault (f : FieldDecl) : Option GoVal :=
  f.gorm.findSome? (fun o => match o with
    | .default v => some v
    | _ => none)

/-- The value gorm writes for a column when a record is created: a field that declares a default
and holds its zero value is written with the default, any other value is written as it is. -/
def createdValue (f : FieldDecl) (v : GoVal) : GoVal :=
  match columnDefault f with
  | some d => if v = zeroValue f.type then d else v
  | none => v

/-- The integer column `name` of a record type as written on creation from the value `v`. -/
def createdInt (fields : List FieldDecl) (name : String) (v : Int) : Int :=
  match findField fields name with
  | none => v
  | some f =>
    match createdValue f (.int v) with
    | .int n => n
    | _ => v

/-- The boolean column `name` of a record type as written on creation from the value `v`. -/
def createdBool (fields : List FieldDecl) (name : String) (v : Bool) : Bool :=
  match findField fields name with
  | none => v
  | some f =>
    match createdValue f (.bool v) with
    | .bool b => b
    | _ => v

/-! ## Zero values and composite literals -/

/-- Zero value of `Vaccine`. -/
def Vaccine.zero : Vaccine :=
  { ID := 0, Code := "", Name := "", CommonName := "", Manufacturer := "", Specification := "",
    Unit := "", StorageTempMin := 0, StorageTempMax := 0, Category := "", DoseCount := 0,
    ApplicableAge := "", Status := 0, CreatedAt := 0, UpdatedAt := 0, DeletedAt := none }

/-- Zero value of `Channel`. -/
def Channel.zero : Channel :=
  { ID := 0, Position := "", RowIndex := "", ColIndex := 0, VaccineID := none, Vaccine := none,
    Capacity := 0, Quantity := 0, Status := 0, LastOutbound := none, CreatedAt := 0,
    UpdatedAt := 0 }

/-- Zero value of `Inventory`. -/
def Inventory.zero : Inventory :=
  { ID := 0, VaccineID := 0, Vaccine := Vaccine.zero, BatchNo := "", TraceCode := "",
    ProductionDate := none, ExpiryDate := 0, ChannelID := none, Channel := none, Quantity := 0,
    Status := 0, InboundTime := 0, OutboundTime := none, InboundTemp := none,
    OperatorID := none, Supplier := "", PurchaseOrder := "", CreatedAt := 0, UpdatedAt := 0,
    DeletedAt := none }

/-- Zero value of `OrderItem`. -/
def OrderItem.zero : OrderItem :=
  { ID := 0, OrderID := 0, InventoryID := 0, Inventory := Inventory.zero, TraceCode := "",
    ChannelID := none, BatchNo := "", OutboundTemp := none, VisionVerified := false,
    VisionImage := "", OutboundTime := 0, CreatedAt := 0 }

/-- Zero value of `Order`. -/
def Order.zero : Order :=
  { ID := 0, OrderNo := "", HISOrderID := "", PatientID := "", PatientName := "",
    VaccineID := 0, Vaccine := Vaccine.zero, Quantity := 0, DoseNumber := 0, Priority := 0,
    Status := 0, ErrorMessage := "", ReceiveTime := 0, StartTime := none,
    CompleteTime := none, OperatorID := none, Items := [], CreatedAt := 0, UpdatedAt := 0,
    DeletedAt := none }

/-- One `Field: value` element of a composite literal `model.Order{...}`. -/
inductive OrderAssign where
  | ID (v : Nat)
  | OrderNo (v : String)
  | HISOrderID (v : String)
  | PatientID (v : String)
  | PatientName (v : String)
  | VaccineID (v : Nat)
  | Vaccine (v : Vaccine)
  | Quantity (v : Int)
  | DoseNumber (v : Int)
  | Priority (v : Int)
  | Status (v : Int)
  | ErrorMessage (v : String)
  | ReceiveTime (v : Int)
  | StartTime (v : Option Int)
  | CompleteTime (v : Option Int)
  | OperatorID (v : Option Nat)
  | Items (v : List OrderItem)
  | CreatedAt (v : Int)
  | UpdatedAt (v : Int)
  | DeletedAt (v : Option Int)

/-- The Go name of the field an element of an `Order` literal sets. -/
def OrderAssign.field : OrderAssign → String
  | .ID _ => "ID"
  | .OrderNo _ => "OrderNo"
  | .HISOrderID _ => "HISOrderID"
  | .PatientID _ => "PatientID"
  | .PatientName _ => "PatientName"
  | .VaccineID _ => "VaccineID"
  | .Vaccine _ => "Vaccine"
  | .Quantity _ => "Quantity"
  | .DoseNumber _ => "DoseNumber"
  | .Priority _ => "Priority"
  | .Status _ => "Status"
  | .ErrorMessage _ => "ErrorMessage"
  | .ReceiveTime _ => "ReceiveTime"
  | .StartTime _ => "StartTime"
  | .CompleteTime _ => "CompleteTime"
  | .OperatorID _ => "OperatorID"
  | .Items _ => "Items"
  | .CreatedAt _ => "CreatedAt"
  | .UpdatedAt _ => "UpdatedAt"
  | .DeletedAt _ => "DeletedAt"

/-- Set one field of an `Order`. -/
def OrderAssign.apply (o : Order) : OrderAssign → Order
  | .ID v => { o with ID := v }
  | .OrderNo v => { o with OrderNo := v }
  | .HISOrderID v => { o with HISOrderID := v }
  | .PatientID v => { o with PatientID := v }
  | .PatientName v => { o with PatientName := v }
  | .VaccineID v => { o with VaccineID := v }
  | .Vaccine v => { o with Vaccine := v }
  | .Quantity v => { o with Quantity := v }
  | .DoseNumber v => { o with DoseNumber := v }
  | .Priority v => { o with Priority := v }
  | .Status v => { o with Status := v }
  | .ErrorMessage v => { o with ErrorMessage := v }
  | .ReceiveTime v => { o with ReceiveTime := v }
  | .StartTime v => { o with StartTime := v }
  | .CompleteTime v => { o with CompleteTime := v }
  | .OperatorID v => { o with OperatorID := v }
  | .Items v => { o with Items := v }
  | .CreatedAt v => { o with CreatedAt := v }
  | .UpdatedAt v => { o with UpdatedAt := v }
  | .DeletedAt v => { o with DeletedAt := v }

/-- The value of a composite literal `model.Order{...}`: the listed fields take the listed
values, every other field keeps its zero value. -/
def Order.literal (elems : List OrderAssign) : Order :=
  elems.foldl OrderAssign.apply Order.zero

/-- One `Field: value` element of a composite literal `model.OrderItem{...}`. -/
inductive OrderItemAssign where
  | ID (v : Nat)
  | OrderID (v : Nat)
  | InventoryID (v : Nat)
  | Inventory (v : Inventory)
  | TraceCode (v : String)
  | ChannelID (v : Option Nat)
  | BatchNo (v : String)
  | OutboundTemp (v : Option ℚ)
  | VisionVerified (v : Bool)
  | VisionImage (v : String)
  | OutboundTime (v : Int)
  | CreatedAt (v : Int)

/-- The Go name of the field an element of an `OrderItem` literal sets. -/
def OrderItemAssign.field : OrderItemAssign → String
  | .ID _ => "ID"
  | .OrderID _ => "OrderID"
  | .InventoryID _ => "InventoryID"
  | .Inventory _ => "Inventory"
  | .TraceCode _ => "TraceCode"
  | .ChannelID _ => "ChannelID"
  | .BatchNo _ => "BatchNo"
  | .OutboundTemp _ => "OutboundTemp"
  | .VisionVerified _ => "VisionVerified"
  | .VisionImage _ => "VisionImage"
  | .OutboundTime _ => "OutboundTime"
  | .CreatedAt _ => "CreatedAt"

/-- Set one field of an `OrderItem`. -/
def OrderItemAssign.apply (it : OrderItem) : OrderItemAssign → OrderItem
  | .ID v => { it with ID := v }
  | .OrderID v => { it with OrderID := v }
  | .InventoryID v => { it with InventoryID := v }
  | .Inventory v => { it with Inventory := v }
  | .TraceCode v => { it with TraceCode := v }
  | .ChannelID v => { it with ChannelID := v }
  | .BatchNo v => { it with BatchNo := v }
  | .OutboundTemp v => { it with OutboundTemp := v }
  | .VisionVerified v => { it with VisionVerified := v }
  | .VisionImage v => { it with VisionImage := v }
  | .OutboundTime v => { it with OutboundTime := v }
  | .CreatedAt v => { it with CreatedAt := v }

/-- The value of a composite literal `model.OrderItem{...}`. -/
def OrderItem.literal (elems : List OrderItemAssign) : OrderItem :=
  elems.foldl OrderItemAssign.apply OrderItem.zero

/-- The `Channel` row written when gorm creates `c`: the columns that declare a default
(`Capacity` 20, `Quantity` 0, `Status` 1) take it when the field holds its zero value. -/
def Channel.created (c : Channel) : Channel :=
  { c with
    Capacity := createdInt channelFields "Capacity" c.Capacity
    Quantity := createdInt channelFields "Quantity" c.Quantity
    Status := createdInt channelFields "Status" c.Status }

/-- The bound the data model states for a channel: `0 ≤ quantity ≤ capacity`. -/
def Channel.quantityInBounds (c : Channel) : Prop :=
  0 ≤ c.Quantity ∧ c.Quantity ≤ c.Capacity

instance (c : Channel) : Decidable c.quantityInBounds := by
  unfold Channel.quantityInBounds
  exact inferInstance

/-! ## Order status -/

/-- The order states named by the comment on `Order.Status`. -/
inductive OrderStatus where
  | Pending
  | Processing
  | Completed
  | Cancelled
  | Exception
  deriving DecidableEq, Repr

/-- The code of a state, as the comment on `Order.Status` gives it:
0 pending, 1 processing, 2 completed, 3 cancelled, 4 exception. -/
def OrderStatus.code : OrderStatus → Int
  | .Pending => 0
  | .Processing => 1
  | .Completed => 2
  | .Cancelled => 3
  | .Exception => 4

/-- The state a stored code stands for. -/
def OrderStatus.ofCode (n : Int) : Option OrderStatus :=
  if n = 0 then some .Pending
  else if n = 1 then some .Processing
  else if n = 2 then some .Completed
  else if n = 3 then some .Cancelled
  else if n = 4 then some .Exception
  else none

/-! ## Order life cycle -/

/-- The milestones that drive an order. `dispatched` carries the outcome of every plan entry the
dispatch loop attempted (`true` for a committed item, `false` for a failed one). `retry` and
`cancelWithScrap` are the two manual resolutions of an exception order. -/
inductive OrderEvent where
  | process (now : Int)
  | dispatched (now : Int) (outcomes : List Bool)
  | cancel
  | retry
  | cancelWithScrap
  deriving DecidableEq, Repr

/-- Errors of the order life cycle. -/
inductive OrderError where
  | InvalidOrderState
  deriving DecidableEq, Repr

/-- Modelled from the spec: the order state machine of the `service` package (section 4.4).
`process` starts a pending order and is an idempotent trigger on any other order; the end of
dispatch moves a processing order to completed when every item succeeded and to exception
otherwise; `cancel` is accepted for a pending or processing order of which no item has been
dispensed and is rejected with `InvalidOrderState` anywhere else. An exception order is terminal
for automatic processing and is resolved by hand (sections 4.4 and 7): `retry` resumes it, so
that the remaining items are dispatched again, and `cancelWithScrap` cancels it with scrap
bookkeeping; both are rejected on an order that is not in exception. -/
def Order.step (o : Order) : OrderEvent → Except OrderError Order
  | .process now =>
    if o.Status = OrderStatus.Pending.code then
      .ok { o with Status := OrderStatus.Processing.code, StartTime := some now }
    else .ok o
  | .dispatched now outcomes =>
    if o.Status = OrderStatus.Processing.code then
      if outcomes.all (fun ok => ok) then
        .ok { o with Status := OrderStatus.Completed.code, CompleteTime := some now }
      else
        .ok { o with Status := OrderStatus.Exception.code }
    else .error .InvalidOrderState
  | .cancel =>
    if (o.Status = OrderStatus.Pending.code ∨ o.Status = OrderStatus.Processing.code)
        ∧ o.Items = [] then
      .ok { o with Status := OrderStatus.Cancelled.code }
    else .error .InvalidOrderState
  | .retry =>
    if o.Status = OrderStatus.Exception.code then
      .ok { o with Status := OrderStatus.Processing.code }
    else .error .InvalidOrderState
  | .cancelWithScrap =>
    if o.Status = OrderStatus.Exception.code then
      .ok { o with Status := OrderStatus.Cancelled.code }
    else .error .InvalidOrderState

/-- The edges of the transition graph of section 4.4, on status codes: pending to processing,
processing to completed or exception, pending or processing to cancelled. -/
def legalTransition (s t : Int) : Bool :=
  (s == 0 && t == 1) || (s == 1 && t == 2) || (s == 1 && t == 4) ||
    (s == 0 && t == 3) || (s == 1 && t == 3)

/-- The two manual resolutions of an exception order, on status codes: exception to processing
(retry) and exception to cancelled (cancel with scrap bookkeeping). -/
def manualResolution (s t : Int) : Bool :=
  (s == 4 && t == 1) || (s == 4 && t == 3)

/-- The statuses an order shows while a list of events is applied to it, rejected events leaving
the order as it is. -/
def Order.observed (o : Order) : List OrderEvent → List Int
  | [] => [o.Status]
  | e :: es =>
    match o.step e with
    | .ok o2 => o.Status :: Order.observed o2 es
    | .error _ => Order.observed o es

/-! ## Dispense commit -/

/-- Modelled from the spec: the commit of one successful dispense by the dispatch coordinator of
the `service` package (section 4.3, steps 2 and 6). The targeted unit and channel are
re-validated (unit in stock, channel normal and holding stock); on success the channel quantity
is decremented by one and the unit leaves stock. -/
def dispenseCommit (now : Int) (c : Channel) (u : Inventory) : Option (Channel × Inventory) :=
  if u.Status = 1 ∧ c.Status = 1 ∧ 0 < c.Quantity then
    some ({ c with Quantity := c.Quantity - 1, LastOutbound := some now },
          { u with Status := 2, OutboundTime := some now })
  else none

/-! ## Alarm handling -/

/-- The body of a `POST /api/v1/alarms/:id/handle` request. -/
structure HandleRequest where
  id : Nat
  status : Int
  operator : Nat
  result : String
  now : Int
  deriving DecidableEq, Repr

/-- Modelled from the spec: what handling does to one alarm (the `handler` and `service`
packages are not part of the sources). Section 6 allows updates of the status and the handled
fields of an alarm and of nothing else. -/
def Alarm.handle (req : HandleRequest) (a : Alarm) : Alarm :=
  { a with
    Status := req.status
    HandledBy := some req.operator
    HandledAt := some req.now
    HandleResult := req.result
    UpdatedAt := req.now }

/-! ## `cmd/server/main.go`: routes -/

/-- HTTP methods used by the server. -/
inductive Method where
  | GET
  | POST
  | PUT
  | DELETE
  deriving DecidableEq, Repr

/-- A registered route: the base path of the group it was registered on, its method, its full
path and its handler chain (group middleware first, the handler last). -/
structure Route where
  group : String
  method : Method
  path : String
  handlers : List String
  deriving DecidableEq, Repr

/-- A gin router group. -/
structure RouterGroup where
  basePath : String
  handlers : List String
  deriving DecidableEq, Repr

/-- Counterpart of `group.Group(relativePath)`; for the paths used in `main`, joining is
concatenation. -/
def RouterGroup.Group (g : RouterGroup) (relativePath : String) : RouterGroup :=
  { basePath := g.basePath ++ relativePath, handlers := g.handlers }

/-- Counterpart of `group.Use(middleware)`. -/
def RouterGroup.Use (g : RouterGroup) (middleware : String) : RouterGroup :=
  { g with handlers := g.handlers ++ [middleware] }

/-- Counterpart of `group.GET`, `group.POST`, `group.PUT` and `group.DELETE`. -/
def RouterGroup.handle (g : RouterGroup) (m : Method) (relativePath : String)
    (handlers : List String) : Route :=
  { group := g.basePath, method := m, path := g.basePath ++ relativePath,
    handlers := g.handlers ++ handlers }

/-- The routes `main` registers (main.go, lines 75 to 189), in registration order. -/
def registeredRoutes : List Route :=
  let r : RouterGroup := { basePath := "", handlers := [] }
  let r := r.Use "gin.Recovery"
  let r := r.Use "middleware.Logger"
  let r := r.Use "middleware.CORS"
  let r := r.Use "middleware.RateLimiter"
  let v1 := r.Group "/api/v1"
  let auth := v1.Group "/auth"
  let protectedGroup := (v1.Group "").Use "middleware.JWT"
  let vaccines := protectedGroup.Group "/vaccines"
  let inventory := protectedGroup.Group "/inventory"
  let orders := protectedGroup.Group "/orders"
  let channels := protectedGroup.Group "/channels"
  let temperature := protectedGroup.Group "/temperature"
  let traces := protectedGroup.Group "/traces"
  let alarms := protectedGroup.Group "/alarms"
  let statistics := protectedGroup.Group "/statistics"
  let his := (r.Group "/his").Use "middleware.HISAuth"
  [ r.handle .GET "/health" ["health"],
    auth.handle .POST "/login" ["AuthHandler.Login"],
    auth.handle .POST "/refresh" ["AuthHandler.Refresh"],
    auth.handle .POST "/logout" ["AuthHandler.Logout"],
    vaccines.handle .GET "" ["VaccineHandler.List"],
    vaccines.handle .GET "/:id" ["VaccineHandler.Get"],
    vaccines.handle .POST "" ["RequirePermission vaccine:create", "VaccineHandler.Create"],
    vaccines.handle .PUT "/:id" ["RequirePermission vaccine:update", "VaccineHandler.Update"],
    vaccines.handle .DELETE "/:id" ["RequirePermission vaccine:delete", "VaccineHandler.Delete"],
    inventory.handle .GET "" ["InventoryHandler.List"],
    inventory.handle .GET "/summary" ["InventoryHandler.Summary"],
    inventory.handle .POST "/inbound"
      ["RequirePermission inventory:inbound", "InventoryHandler.Inbound"],
    inventory.handle .POST "/outbound"
      ["RequirePermission inventory:outbound", "InventoryHandler.Outbound"],
    orders.handle .GET "" ["OrderHandler.List"],
    orders.handle .GET "/:id" ["OrderHandler.Get"],
    orders.handle .POST "" ["OrderHandler.Create"],
    orders.handle .POST "/:id/process" ["OrderHandler.Process"],
    orders.handle .POST "/:id/cancel" ["OrderHandler.Cancel"],
    channels.handle .GET "" ["ChannelHandler.List"],
    channels.handle .GET "/matrix" ["ChannelHandler.Matrix"],
    channels.handle .PUT "/:id" ["RequirePermission channel:update", "ChannelHandler.Update"],
    temperature.handle .GET "/current" ["TemperatureHandler.Current"],
    temperature.handle .GET "/history" ["TemperatureHandler.History"],
    temperature.handle .GET "/report" ["TemperatureHandler.Report"],
    traces.handle .GET "/:trace_code" ["TraceHandler.Query"],
    traces.handle .GET "/batch/:batch_no" ["TraceHandler.BatchQuery"],
    alarms.handle .GET "" ["AlarmHandler.List"],
    alarms.handle .POST "/:id/handle" ["RequirePermission alarm:handle", "AlarmHandler.Handle"],
    statistics.handle .GET "/overview" ["StatisticsHandler.Overview"],
    statistics.handle .GET "/inventory" ["StatisticsHandler.Inventory"],
    his.handle .POST "/orders" ["HISHandler.ReceiveOrder"] ]

/-- Modelled from the spec: the effect of serving one request of a route on the stored alarms
(the handlers are not part of the sources). A `GET` route reads; the handle route updates the
alarm the request names, by `Alarm.handle`; no other route touches the alarm table. -/
def alarmEffect (r : Route) (req : HandleRequest) (alarms : List Alarm) : List Alarm :=
  if r.method = .POST ∧ r.path = "/api/v1/alarms/:id/handle" then
    alarms.map (fun a => if a.ID = req.id then a.handle req else a)
  else alarms

/-! ## `cmd/server/main.go`: wiring of handlers, services and repositories -/

/-- The repositories and clients each service is constructed with (main.go, lines 59 to 67). -/
def serviceDeps : List (String × List String) :=
  [ ("vaccineService", ["vaccineRepo"]),
    ("inventoryService", ["inventoryRepo", "vaccineRepo", "channelRepo", "traceRepo"]),
    ("orderService", ["orderRepo", "inventoryRepo", "rdb"]),
    ("sortingService", ["orderRepo", "inventoryRepo", "channelRepo", "rdb"]),
    ("traceService", ["traceRepo", "inventoryRepo"]),
    ("temperatureService", ["rdb"]),
    ("alarmService", ["alarmRepo", "rdb"]),
    ("authService", ["userRepo"]) ]

/-- The services and repositories each handler is constructed with (main.go, lines 97 to
187). -/
def handlerDeps : List (String × List String) :=
  [ ("AuthHandler", ["authService"]),
    ("VaccineHandler", ["vaccineService"]),
    ("InventoryHandler", ["inventoryService"]),
    ("OrderHandler", ["orderService", "sortingService"]),
    ("ChannelHandler", ["channelRepo"]),
    ("TemperatureHandler", ["temperatureService"]),
    ("TraceHandler", ["traceService"]),
    ("AlarmHandler", ["alarmService"]),
    ("StatisticsHandler", ["inventoryService", "orderService", "alarmService"]),
    ("HISHandler", ["orderService"]) ]

/-- The handler type a route ends in: the part of its last handler before the dot. -/
def Route.handlerType (r : Route) : String :=
  match r.handlers.getLast? with
  | none => ""
  | some h => String.mk (h.data.takeWhile (fun c => c != '.'))

/-- Whether the handler of a route was given a repository, directly or through one of its
services. -/
def Route.reaches (r : Route) (repo : String) : Bool :=
  match handlerDeps.lookup r.handlerType with
  | none => false
  | some deps =>
    deps.any (fun d =>
      d == repo ||
        (match serviceDeps.lookup d with
         | none => false
         | some repos => repos.contains repo))

/-! ## Trace recording -/

/-- What a stock operation hands to the trace recorder (section 4.6): the operation (`INBOUND`,
`OUTBOUND`, `TRANSFER` or `SCRAP`), the unit and its trace code, the locations, the temperature,
the operator and the time. -/
structure TraceEntry where
  operation : String
  inventoryUnitID : Option Nat
  traceCode : String
  fromLocation : String
  toLocation : String
  temperature : Option ℚ
  operatorID : Option Nat
  now : Int
  deriving DecidableEq, Repr

/-- The primary key the store gives the next trace: one more than the greatest in use. -/
def nextTraceID (traces : List Trace) : Nat :=
  (traces.map (fun t => t.ID)).foldr max 0 + 1

/-- Modelled from the spec: the trace recorder of the `service` package (section 4.6), a pure
append. Replaying a dispense outcome whose `OUTBOUND` trace is already stored under the same
trace code writes no second row (section 8). -/
def TraceRecorder.record (traces : List Trace) (e : TraceEntry) : List Trace :=
  if e.operation = "OUTBOUND" ∧
      traces.any (fun t => t.TraceCode == e.traceCode && t.Operation == "OUTBOUND") then
    traces
  else
    traces ++
      [{ ID := nextTraceID traces, TraceCode := e.traceCode, InventoryID := e.inventoryUnitID,
         Operation := e.operation, OperationName := "", FromLocation := e.fromLocation,
         ToLocation := e.toLocation, Temperature := e.temperature,
         OperatorID := e.operatorID, OperatorName := "", Remark := "", OperatedAt := e.now,
         CreatedAt := e.now }]

/-- Modelled from the spec: the effect of serving one request of a route on the stored traces
(the handlers are not part of the sources). A `GET` route reads. Any other route hands the stock
movements its request brings about, if any, to the trace recorder; this also covers the routes
whose handler the wiring of `main` gives no way to the trace repository. -/
def traceEffect (r : Route) (movements : List TraceEntry) (traces : List Trace) : List Trace :=
  if r.method = .GET then traces
  else movements.foldl TraceRecorder.record traces

/-! ## `internal/config/config.go` -/

/-- Counterpart of `ServerConfig`. -/
structure ServerConfig where
  Port : Int
  WSPort : Int
  GRPCPort : Int
  Mode : String
  deriving DecidableEq, Repr

/-- Counterpart of `DatabaseConfig`. -/
structure DatabaseConfig where
  Host : String
  Port : Int
  User : String
  Password : String
  DBName : String
  SSLMode : String
  MaxIdleConns : Int
  MaxOpenConns : Int
  deriving DecidableEq, Repr

/-- Counterpart of `RedisConfig`. -/
structure RedisConfig where
  Addr : String
  Password : String
  DB : Int
  deriving DecidableEq, Repr

/-- Counterpart of `JWTConfig`. -/
structure JWTConfig where
  Secret : String
  AccessExpireMin : Int
  RefreshExpireHr : Int
  deriving DecidableEq, Repr

/-- Counterpart of `LogConfig`. -/
structure LogConfig where
  Level : String
  Path : String
  deriving DecidableEq, Repr

/-- Counterpart of `RateLimitConfig`. -/
structure RateLimitConfig where
  Enabled : Bool
  RPS : Int
  Burst : Int
  deriving DecidableEq, Repr

/-- Counterpart of `HISConfig`. -/
structure HISConfig where
  APIKey : String
  CallbackURL : String
  deriving DecidableEq, Repr

/-- Counterpart of `Config`. -/
structure Config where
  Server : ServerConfig
  Database : DatabaseConfig
  Redis : RedisConfig
  JWT : JWTConfig
  Log : LogConfig
  RateLimit : RateLimitConfig
  HIS : HISConfig
  deriving DecidableEq, Repr

/-- A setting, as a YAML document or a `SetDefault` call provides it: an integer, a string or a
boolean; `mapping` is a nested mapping, and `other` any further YAML value (a float, a sequence),
given by its text. An integer of a YAML document lies between `-2^63` and `2^64 - 1`; a larger
number is parsed as a float. -/
inductive Value where
  | int (n : Int)
  | str (s : String)
  | bool (b : Bool)
  | mapping
  | other (text : String)
  deriving DecidableEq, Repr

/-- The Go `int` (64 bits) that the decoder stores for an integer setting: the parser holds an
integer of the `int64` range as an `int` and one from `2^63` up to `2^64 - 1` as a `uint64`,
which the conversion to `int` wraps around; `none` outside the two ranges. -/
def goInt (n : Int) : Option Int :=
  if -9223372036854775808 ≤ n ∧ n < 9223372036854775808 then some n
  else if 9223372036854775808 ≤ n ∧ n < 18446744073709551616 then
    some (n - 18446744073709551616)
  else none

/-- Viper keys are case-insensitive: every key is lower-cased when written and when read. The
keys of `Config` are ASCII, on which `Char.toLower` agrees with Go's `strings.ToLower`. -/
def lower (key : String) : String :=
  String.mk (key.data.map Char.toLower)

/-- The state of the process-wide viper instance that the package-level functions
`viper.SetConfigName`, `viper.SetDefault`, `viper.ReadInConfig`, ... work on. `defaults` holds
the registered defaults under dotted lower-case keys. `config` is the settings map of the
configuration file that was read, looked up by dotted lower-case key: the value the map binds the
key to, `none` when it binds none (or null). -/
structure Viper where
  configName : String
  configType : String
  configPaths : List String
  defaults : List (String × Value)
  config : String → Option Value

/-- The instance as the viper package initialises it. -/
def Viper.fresh : Viper :=
  { configName := "config", configType := "", configPaths := [], defaults := [],
    config := fun _ => none }

/-- Counterpart of `viper.SetConfigName`. -/
def Viper.SetConfigName (g : Viper) (name : String) : Viper :=
  { g with configName := name }

/-- Counterpart of `viper.SetConfigType`. -/
def Viper.SetConfigType (g : Viper) (type : String) : Viper :=
  { g with configType := type }

/-- Counterpart of `viper.AddConfigPath`: a path that is already registered is not added
again. -/
def Viper.AddConfigPath (g : Viper) (path : String) : Viper :=
  if g.configPaths.contains path then g
  else { g with configPaths := g.configPaths ++ [path] }

/-- Counterpart of `viper.SetDefault`: the newest entry for a key is the one that is read. -/
def Viper.SetDefault (g : Viper) (key : String) (value : Value) : Viper :=
  { g with defaults := (lower key, value) :: g.defaults }

/-- What a directory holds under the configuration name: a file that cannot be read, a file that
is not a YAML document, or a YAML document. A document is given by the settings map viper builds
from it, as a lookup by dotted lower-case key: parsing the document and folding the case of its
keys (which also settles what a document that spells one key in several ways amounts to) are the
library's work and precede this lookup. For a document that spells each key once, `find` is what
the document says. -/
inductive FileData where
  | unreadable
  | malformed
  | settings (find : String → Option Value)

/-- The file system as `ReadInConfig` sees it: for a directory and a configuration name, the
configuration file of that name in that directory, if there is one. -/
abbrev Disk := String → String → Option FileData

/-- The errors `Load` can return. -/
inductive LoadError where
  | ConfigFileNotFound
  | ReadFailed
  | ParseFailed
  | DecodeFailed (key : String)
  deriving DecidableEq, Repr

/-- Counterpart of `viper.ReadInConfig`: the search paths are tried in the order they were added;
the first file found is read and parsed, and its settings map replaces that of a previous
read. -/
def Viper.ReadInConfig (g : Viper) (disk : Disk) : Except LoadError Unit × Viper :=
  match g.configPaths.findSome? (fun dir => disk dir g.configName) with
  | none => (.error .ConfigFileNotFound, g)
  | some .unreadable => (.error .ReadFailed, g)
  | some .malformed => (.error .ParseFailed, g)
  | some (.settings find) => (.ok (), { g with config := find })

/-- Counterpart of `viper.Get` for the sources `Load` uses: a setting of the configuration file
takes precedence over a default. -/
def Viper.Get (g : Viper) (key : String) : Option Value :=
  match g.config (lower key) with
  | some v => some v
  | none => g.defaults.lookup (lower key)

/-- The conversions the decoder applies when a setting is not of the type of its field (viper
decodes with weakly typed input). They belong to the library and are a parameter here; `none`
is a failed conversion. -/
structure WeakDecode where
  toInt : Value → Option Int
  toStr : Value → Option String
  toBool : Value → Option Bool

/-- Decode the setting of an `int` field; a missing setting leaves the zero value, and an
integer setting is stored as the Go `int` it converts to. -/
def decodeInt (w : WeakDecode) (g : Viper) (key : String) : Except LoadError Int :=
  match g.Get key with
  | none => .ok 0
  | some (.int n) =>
    match goInt n with
    | some m => .ok m
    | none =>
      match w.toInt (.int n) with
      | some m => .ok m
      | none => .error (.DecodeFailed key)
  | some v =>
    match w.toInt v with
    | some n => .ok n
    | none => .error (.DecodeFailed key)

/-- Decode the setting of a `string` field; a missing setting leaves the zero value. -/
def decodeStr (w : WeakDecode) (g : Viper) (key : String) : Except LoadError String :=
  match g.Get key with
  | none => .ok ""
  | some (.str s) => .ok s
  | some v =>
    match w.toStr v with
    | some s => .ok s
    | none => .error (.DecodeFailed key)

/-- Decode the setting of a `bool` field; a missing setting leaves the zero value. -/
def decodeBool (w : WeakDecode) (g : Viper) (key : String) : Except LoadError Bool :=
  match g.Get key with
  | none => .ok false
  | some (.bool b) => .ok b
  | some v =>
    match w.toBool v with
    | some b => .ok b
    | none => .error (.DecodeFailed key)

/-- The `mapstructure` names of the seven sections of `Config`, lower-cased. -/
def sectionKeys : List String :=
  ["server", "database", "redis", "jwt", "log", "ratelimit", "his"]

/-- The dotted `mapstructure` names of the scalar fields of `Config`, lower-cased. -/
def leafKeys : List String :=
  [ "server.port", "server.wsport", "server.grpcport", "server.mode",
    "database.host", "database.port", "database.user", "database.password", "database.dbname",
    "database.sslmode", "database.maxidleconns", "database.maxopenconns",
    "redis.addr", "redis.password", "redis.db",
    "jwt.secret", "jwt.accessexpiremin", "jwt.refreshexpirehr",
    "log.level", "log.path",
    "ratelimit.enabled", "ratelimit.rps", "ratelimit.burst",
    "his.apikey", "his.callbackurl" ]

/-- Whether the key of a default fits the shape of `Config`: a section must not be bound to a
scalar and a scalar field must not be bound to a nested mapping. Keys that name no field are
ignored by the decoder and fit. -/
def keyFits (key : String) : Bool :=
  !(sectionKeys.contains key) &&
    !(leafKeys.any (fun l => (l ++ ".").data.isPrefixOf key.data))

/-- Whether what the settings map binds a section key to fits the shape of `Config`: nothing, or
a mapping. -/
def sectionFits (v : Option Value) : Bool :=
  match v with
  | none => true
  | some .mapping => true
  | some _ => false

/-- The fields of `Config` decoded from the settings under their `mapstructure` paths. -/
def decodeFields (g : Viper) (w : WeakDecode) : Except LoadError Config := do
  let serverPort ← decodeInt w g "server.port"
  let serverWSPort ← decodeInt w g "server.wsPort"
  let serverGRPCPort ← decodeInt w g "server.grpcPort"
  let serverMode ← decodeStr w g "server.mode"
  let databaseHost ← decodeStr w g "database.host"
  let databasePort ← decodeInt w g "database.port"
  let databaseUser ← decodeStr w g "database.user"
  let databasePassword ← decodeStr w g "database.password"
  let databaseDBName ← decodeStr w g "database.dbname"
  let databaseSSLMode ← decodeStr w g "database.sslmode"
  let databaseMaxIdleConns ← decodeInt w g "database.maxIdleConns"
  let databaseMaxOpenConns ← decodeInt w g "database.maxOpenConns"
  let redisAddr ← decodeStr w g "redis.addr"
  let redisPassword ← decodeStr w g "redis.password"
  let redisDB ← decodeInt w g "redis.db"
  let jwtSecret ← decodeStr w g "jwt.secret"
  let jwtAccessExpireMin ← decodeInt w g "jwt.accessExpireMin"
  let jwtRefreshExpireHr ← decodeInt w g "jwt.refreshExpireHr"
  let logLevel ← decodeStr w g "log.level"
  let logPath ← decodeStr w g "log.path"
  let rateLimitEnabled ← decodeBool w g "rateLimit.enabled"
  let rateLimitRPS ← decodeInt w g "rateLimit.rps"
  let rateLimitBurst ← decodeInt w g "rateLimit.burst"
  let hisAPIKey ← decodeStr w g "his.apiKey"
  let hisCallbackURL ← decodeStr w g "his.callbackUrl"
  pure
    { Server :=
        { Port := serverPort, WSPort := serverWSPort, GRPCPort := serverGRPCPort,
          Mode := serverMode }
      Database :=
        { Host := databaseHost, Port := databasePort, User := databaseUser,
          Password := databasePassword, DBName := databaseDBName,
          SSLMode := databaseSSLMode, MaxIdleConns := databaseMaxIdleConns,
          MaxOpenConns := databaseMaxOpenConns }
      Redis := { Addr := redisAddr, Password := redisPassword, DB := redisDB }
      JWT :=
        { Secret := jwtSecret, AccessExpireMin := jwtAccessExpireMin,
          RefreshExpireHr := jwtRefreshExpireHr }
      Log := { Level := logLevel, Path := logPath }
      RateLimit := { Enabled := rateLimitEnabled, RPS := rateLimitRPS, Burst := rateLimitBurst }
      HIS := { APIKey := hisAPIKey, CallbackURL := hisCallbackURL } }

/-- Counterpart of `viper.Unmarshal(&cfg)`: a section bound to something that is not a mapping,
or a default that does not fit the shape of `Config`, fails the decoding; otherwise every field
is decoded from the setting under its `mapstructure` path. -/
def Viper.Unmarshal (g : Viper) (w : WeakDecode) : Except LoadError Config :=
  match sectionKeys.find? (fun s => !(sectionFits (g.config s))) with
  | some s => .error (.DecodeFailed s)
  | none =>
    match g.defaults.find? (fun e => !(keyFits e.1)) with
    | some e => .error (.DecodeFailed e.1)
    | none => decodeFields g w

/-- The part of `Load` before the file is read (config.go, lines 73 to 96): name, type and
search paths of the configuration file, then the eighteen defaults. -/
def registerDefaults (g : Viper) : Viper :=
  let g := g.SetConfigName "config"
  let g := g.SetConfigType "yaml"
  let g := g.AddConfigPath "./configs"
  let g := g.AddConfigPath "."
  let g := g.SetDefault "server.port" (.int 8080)
  let g := g.SetDefault "server.wsPort" (.int 8081)
  let g := g.SetDefault "server.grpcPort" (.int 9090)
  let g := g.SetDefault "server.mode" (.str "debug")
  let g := g.SetDefault "database.host" (.str "localhost")
  let g := g.SetDefault "database.port" (.int 5432)
  let g := g.SetDefault "database.sslmode" (.str "disable")
  let g := g.SetDefault "database.maxIdleConns" (.int 10)
  let g := g.SetDefault "database.maxOpenConns" (.int 100)
  let g := g.SetDefault "redis.addr" (.str "localhost:6379")
  let g := g.SetDefault "redis.db" (.int 0)
  let g := g.SetDefault "jwt.accessExpireMin" (.int 120)
  let g := g.SetDefault "jwt.refreshExpireHr" (.int 168)
  let g := g.SetDefault "log.level" (.str "info")
  let g := g.SetDefault "log.path" (.str "logs")
  let g := g.SetDefault "rateLimit.enabled" (.bool true)
  let g := g.SetDefault "rateLimit.rps" (.int 100)
  let g := g.SetDefault "rateLimit.burst" (.int 200)
  g

/-- Counterpart of `config.Load` (config.go, lines 71 to 108). It takes the state of the
process-wide viper instance and returns, next to its result, the state it leaves behind. -/
def Load (w : WeakDecode) (disk : Disk) (g : Viper) : Except LoadError Config × Viper :=
  let g := registerDefaults g
  match g.ReadInConfig disk with
  | (.error err, g) => (.error err, g)
  | (.ok _, g) =>
    match g.Unmarshal w with
    | .error err => (.error err, g)
    | .ok cfg => (.ok cfg, g)

/-! ## `cmd/server/main.go`: start-up -/

/-- A configuration value handed to a component. -/
inductive CfgArg where
  | str (s : String)
  | int (n : Int)
  | database (c : DatabaseConfig)
  | redis (c : RedisConfig)
  | jwt (c : JWTConfig)
  | rateLimit (c : RateLimitConfig)
  deriving DecidableEq, Repr

/-- A call `main` makes to load the configuration or to build or start a component, with the
configuration values among its arguments (arguments that are components themselves are not
listed). -/
structure Call where
  callee : String
  config : List CfgArg
  deriving DecidableEq, Repr

/-- How `main` ends: `os.Exit` with a code, `log.Fatal` (of the `logger` package, taken to end
the process), or serving until the shutdown signal; a failing `srv.Shutdown` is only logged. -/
inductive Outcome where
  | exited (code : Nat)
  | fatal (message : String)
  | served
  deriving DecidableEq, Repr

/-- The observable course of one run of `main`. -/
structure Run where
  calls : List Call
  outcome : Outcome
  viper : Viper
  ginReleaseMode : Bool

/-- The calls of `main` after the stores are connected, up to the construction of the HTTP
server (main.go, lines 50 to 195). -/
def wireComponents (cfg : Config) : List Call :=
  [ ⟨"repository.NewVaccineRepository", []⟩,
    ⟨"repository.NewInventoryRepository", []⟩,
    ⟨"repository.NewOrderRepository", []⟩,
    ⟨"repository.NewChannelRepository", []⟩,
    ⟨"repository.NewTraceRepository", []⟩,
    ⟨"repository.NewAlarmRepository", []⟩,
    ⟨"repository.NewUserRepository", []⟩,
    ⟨"service.NewVaccineService", []⟩,
    ⟨"service.NewInventoryService", []⟩,
    ⟨"service.NewOrderService", []⟩,
    ⟨"service.NewSortingService", []⟩,
    ⟨"service.NewTraceService", []⟩,
    ⟨"service.NewTemperatureService", []⟩,
    ⟨"service.NewAlarmService", []⟩,
    ⟨"service.NewAuthService", [.jwt cfg.JWT]⟩ ] ++
  (if cfg.Server.Mode = "release" then [⟨"gin.SetMode", []⟩] else []) ++
  [ ⟨"gin.New", []⟩,
    ⟨"gin.Recovery", []⟩,
    ⟨"middleware.Logger", []⟩,
    ⟨"middleware.CORS", []⟩,
    ⟨"middleware.RateLimiter", [.rateLimit cfg.RateLimit]⟩,
    ⟨"handler.NewAuthHandler", []⟩,
    ⟨"middleware.JWT", [.str cfg.JWT.Secret]⟩,
    ⟨"handler.NewVaccineHandler", []⟩,
    ⟨"handler.NewInventoryHandler", []⟩,
    ⟨"handler.NewOrderHandler", []⟩,
    ⟨"handler.NewChannelHandler", []⟩,
    ⟨"handler.NewTemperatureHandler", []⟩,
    ⟨"handler.NewTraceHandler", []⟩,
    ⟨"handler.NewAlarmHandler", []⟩,
    ⟨"handler.NewStatisticsHandler", []⟩,
    ⟨"middleware.HISAuth", [.str cfg.HIS.APIKey]⟩,
    ⟨"handler.NewHISHandler", []⟩,
    ⟨"http.Server", [.int cfg.Server.Port]⟩ ]

/-- The two `go` statements that follow the start of the HTTP server (main.go, lines 205 to
209). -/
def serverStarts (cfg : Config) : List Call :=
  [ ⟨"startWebSocketServer", [.int cfg.Server.WSPort]⟩,
    ⟨"startGRPCServer", [.int cfg.Server.GRPCPort]⟩ ]

/-- Counterpart of `main` (main.go, lines 24 to 226). The inputs are what the process finds:
the decoder conversions, the file system, whether the database and Redis connections succeed,
how `srv.ListenAndServe` fares, and the state of the viper instance. `listen = none` is a
server that serves until it is shut down; `listen = some k` is a `ListenAndServe` that fails, its
goroutine ending the process through `log.Fatal` once `main` has issued `k` of the two further
`go` statements. -/
def main (w : WeakDecode) (disk : Disk) (dbOk redisOk : Bool) (listen : Option Nat)
    (g : Viper) : Run :=
  match Load w disk g with
  | (.error _, g) =>
    { calls := [⟨"config.Load", []⟩], outcome := .exited 1, viper := g,
      ginReleaseMode := false }
  | (.ok cfg, g) =>
    let calls : List Call :=
      [ ⟨"config.Load", []⟩,
        ⟨"logger.New", [.str cfg.Log.Level, .str cfg.Log.Path]⟩,
        ⟨"database.New", [.database cfg.Database]⟩ ]
    if !dbOk then
      { calls := calls, outcome := .fatal "数据库连接失败", viper := g, ginReleaseMode := false }
    else
      let calls := calls ++ [⟨"redis.New", [.redis cfg.Redis]⟩]
      if !redisOk then
        { calls := calls, outcome := .fatal "Redis连接失败", viper := g, ginReleaseMode := false }
      else
        let calls := calls ++ wireComponents cfg ++ [⟨"srv.ListenAndServe", []⟩]
        match listen with
        | some k =>
          { calls := calls ++ (serverStarts cfg).take k, outcome := .fatal "HTTP服务启动失败",
            viper := g, ginReleaseMode := decide (cfg.Server.Mode = "release") }
        | none =>
          { calls := calls ++ serverStarts cfg, outcome := .served, viper := g,
            ginReleaseMode := decide (cfg.Server.Mode = "release") }

/-- The values `main` may hand out as configuration: the fields of the loaded `Config` that it
reads. -/
def Config.handedOut (cfg : Config) : List CfgArg :=
  [ .str cfg.Log.Level, .str cfg.Log.Path, .database cfg.Database, .redis cfg.Redis,
    .jwt cfg.JWT, .rateLimit cfg.RateLimit, .str cfg.JWT.Secret, .str cfg.HIS.APIKey,
    .int cfg.Server.Port, .int cfg.Server.WSPort, .int cfg.Server.GRPCPort ]

/-! ## Concrete inputs used in the examples -/

/-- A decoder that converts nothing. -/
def strictDecode : WeakDecode :=
  { toInt := fun _ => none, toStr := fun _ => none, toBool := fun _ => none }

/-- A file system with one configuration file, `./configs/config`, a document that binds the
lower-case keys of `kv` and no other. -/
def diskWith (kv : List (String × Value)) : Disk :=
  fun dir name =>
    if dir = "./configs" ∧ name = "config" then some (.settings (fun key => kv.lookup key))
    else none

/-- A stored unit of vaccine 7 in channel 1. -/
def sampleUnit (id : Nat) (expiry : Int) : Inventory :=
  { Inventory.zero with
    ID := id, VaccineID := 7, ExpiryDate := expiry, ChannelID := some 1, Quantity := 1,
    Status := 1 }

/-- A normal channel 1 with three units of capacity 20. -/
def sampleChannel : Channel :=
  { Channel.zero with ID := 1, Capacity := 20, Quantity := 3, Status := 1 }

/-- A stored trace of the inbound of unit 2. -/
def sampleTrace : Trace :=
  { ID := 1, TraceCode := "T2", InventoryID := some 2, Operation := "INBOUND",
    OperationName := "", FromLocation := "dock", ToLocation := "A1", Temperature := none,
    OperatorID := some 9, OperatorName := "", Remark := "", OperatedAt := 100, CreatedAt := 100 }

/-- The outbound movement of unit 2. -/
def sampleMovement : TraceEntry :=
  { operation := "OUTBOUND", inventoryUnitID := some 2, traceCode := "T2", fromLocation := "A1",
    toLocation := "window", temperature := none, operatorID := some 9, now := 200 }

/-- An open alarm. -/
def sampleAlarm : Alarm :=
  { ID := 1, AlarmCode := "T001", AlarmType := "TemperatureBreach", Level := 3,
    Source := "sensor", SourceID := none, Message := "out of range", Status := 0,
    HandledBy := none, HandledAt := none, HandleResult := "", Notified := false,
    NotifyTime := none, AlarmTime := 100, CreatedAt := 100, UpdatedAt := 100 }

/-! ## Predicates used in the statements -/

/-- Two consecutive observed statuses: either no change, or an edge of the transition graph or a
manual resolution of an exception order, which neither enters pending nor leaves completed or
cancelled. -/
def statusStep (s t : Int) : Prop :=
  s = t ∨ ((legalTransition s t = true ∨ manualResolution s t = true) ∧
    t ≠ OrderStatus.Pending.code ∧
    s ≠ OrderStatus.Completed.code ∧ s ≠ OrderStatus.Cancelled.code)

/-- The fields of an alarm that handling does not write: everything except `Status`,
`HandledBy`, `HandledAt`, `HandleResult` and `UpdatedAt`. -/
def Alarm.sameRecord (a b : Alarm) : Prop :=
  b.ID = a.ID ∧ b.AlarmCode = a.AlarmCode ∧ b.AlarmType = a.AlarmType ∧ b.Level = a.Level ∧
    b.Source = a.Source ∧ b.SourceID = a.SourceID ∧ b.Message = a.Message ∧
    b.Notified = a.Notified ∧ b.NotifyTime = a.NotifyTime ∧ b.AlarmTime = a.AlarmTime ∧
    b.CreatedAt = a.CreatedAt

/-- The eighteen defaults as `registerDefaults` leaves them in the instance: newest first, under
lower-cased keys. -/
def registeredDefaults : List (String × Value) :=
  [ ("ratelimit.burst", .int 200), ("ratelimit.rps", .int 100), ("ratelimit.enabled", .bool true),
    ("log.path", .str "logs"), ("log.level", .str "info"),
    ("jwt.refreshexpirehr", .int 168), ("jwt.accessexpiremin", .int 120),
    ("redis.db", .int 0), ("redis.addr", .str "localhost:6379"),
    ("database.maxopenconns", .int 100), ("database.maxidleconns", .int 10),
    ("database.sslmode", .str "disable"), ("database.port", .int 5432),
    ("database.host", .str "localhost"),
    ("server.mode", .str "debug"), ("server.grpcport", .int 9090), ("server.wsport", .int 8081),
    ("server.port", .int 8080) ]

/-- The configuration file `Load` reads: the first one found along the search paths that are
registered once `Load` has added its own. -/
def configFile (disk : Disk) (g : Viper) : Option FileData :=
  (registerDefaults g).configPaths.findSome? (fun dir => disk dir (registerDefaults g).configName)

/-- The setting a configuration file holds for a key, keys being case-insensitive; `none` when
the file omits the key. -/
def fileSetting (find : String → Option Value) (key : String) : Option Value :=
  find (lower key)

/-- An `int` field of the loaded configuration against the file: the default when the file omits
the key, the file's number as a Go `int` when it gives one, and otherwise the conversion of the
file's value. -/
def settledInt (w : WeakDecode) (setting : Option Value) (dflt actual : Int) : Prop :=
  match setting with
  | none => actual = dflt
  | some (.int n) =>
    match goInt n with
    | some m => actual = m
    | none => w.toInt (.int n) = some actual
  | some v => w.toInt v = some actual

/-- A `string` field of the loaded configuration against the file. -/
def settledStr (w : WeakDecode) (setting : Option Value) (dflt actual : String) : Prop :=
  match setting with
  | none => actual = dflt
  | some (.str s) => actual = s
  | some v => w.toStr v = some actual

/-- A `bool` field of the loaded configuration against the file. -/
def settledBool (w : WeakDecode) (setting : Option Value) (dflt actual : Bool) : Prop :=
  match setting with
  | none => actual = dflt
  | some (.bool b) => actual = b
  | some v => w.toBool v = some actual

/-- The configuration `Load` returns for a file that sets nothing: the eighteen defaults, and
the zero value for the seven fields without a default. -/
def defaultConfig : Config :=
  { Server := { Port := 8080, WSPort := 8081, GRPCPort := 9090, Mode := "debug" }
    Database :=
      { Host := "localhost", Port := 5432, User := "", Password := "", DBName := "",
        SSLMode := "disable", MaxIdleConns := 10, MaxOpenConns := 100 }
    Redis := { Addr := "localhost:6379", Password := "", DB := 0 }
    JWT := { Secret := "", AccessExpireMin := 120, RefreshExpireHr := 168 }
    Log := { Level := "info", Path := "logs" }
    RateLimit := { Enabled := true, RPS := 100, Burst := 200 }
    HIS := { APIKey := "", CallbackURL := "" } }

/-- The `*Config` that `Load` returns: `none` stands for the nil pointer. -/
def returnedConfig (r : Except LoadError Config) : Option Config :=
  match r with
  | .ok cfg => some cfg
  | .error _ => none

/-- The `error` that `Load` returns: `none` stands for the nil error. -/
def returnedError (r : Except LoadError Config) : Option LoadError :=
  match r with
  | .ok _ => none
  | .error err => some err

/-- The calls that initialise the logger, the database, Redis or a server. -/
def initialisers : List String :=
  ["logger.New", "database.New", "redis.New", "gin.New", "http.Server",
   "startWebSocketServer", "startGRPCServer"]

/-- A file system without any configuration file. -/
def emptyDisk : Disk := fun _ _ => none

/-! ## Theorems -/

theorem eligibleSorted_sorted (now : Int) (vaccineID : Nat) (units : List Inventory)
    (channels : List Channel) :
    (eligibleSorted now vaccineID units channels).Sorted fefoLE :=
  List.sorted_insertionSort fefoLE _

theorem eligibleSorted_perm (now : Int) (vaccineID : Nat) (units : List Inventory)
    (channels : List Channel) :
    (eligibleSorted now vaccineID units channels).Perm
      (units.filter (eligible now vaccineID channels)) :=
  List.perm_insertionSort fefoLE _

theorem fefoLE_expiry {a b : Inventory} (h : fefoLE a b) : a.ExpiryDate ≤ b.ExpiryDate := by
  rcases h with h | ⟨h, _⟩
  · exact le_of_lt h
  · exact le_of_eq h

/-- C1: a successful plan is the prefix, of the requested length, of the eligible units in FEFO
order (expiry ascending, id ascending), and no eligible unit left out of the plan expires before
a selected one. -/
theorem planAllocation_fefo (now : Int) (vaccineID quantity : Nat) (priority : Int)
    (units : List Inventory) (channels : List Channel) (plan : List PlanEntry)
    (h : planAllocation now vaccineID quantity priority units channels = .ok plan) :
    ∃ selected rest : List Inventory,
      plan = selected.map PlanEntry.ofUnit ∧ selected.length = quantity ∧
      plan.length = quantity ∧
      (selected ++ rest).Perm (units.filter (eligible now vaccineID channels)) ∧
      (selected ++ rest).Sorted fefoLE ∧
      ∀ s ∈ selected, ∀ u ∈ units, eligible now vaccineID channels u = true →
        u.ID ∉ plan.map PlanEntry.inventoryUnitID → s.ExpiryDate ≤ u.ExpiryDate := by
  unfold planAllocation at h
  simp only at h
  split at h
  · cases h
  · rename_i hlen
    have hplan : plan = ((eligibleSorted now vaccineID units channels).take quantity).map
        PlanEntry.ofUnit := by
      injection h with h
      exact h.symm
    have hlen2 : quantity ≤ (eligibleSorted now vaccineID units channels).length :=
      Nat.le_of_not_lt hlen
    refine ⟨(eligibleSorted now vaccineID units channels).take quantity,
      (eligibleSorted now vaccineID units channels).drop quantity, hplan, ?_, ?_, ?_, ?_, ?_⟩
    · simp [List.length_take, hlen2]
    · simp [hplan, List.length_take, hlen2]
    · rw [List.take_append_drop]
      exact eligibleSorted_perm now vaccineID units channels
    · rw [List.take_append_drop]
      exact eligibleSorted_sorted now vaccineID units channels
    · intro s hs u hu helig hnot
      have hmem : u ∈ eligibleSorted now vaccineID units channels :=
        (eligibleSorted_perm now vaccineID units channels).mem_iff.mpr
          (List.mem_filter.mpr ⟨hu, helig⟩)
      rw [← List.take_append_drop quantity (eligibleSorted now vaccineID units channels)] at hmem
      rcases List.mem_append.mp hmem with hin | hin
      · exfalso
        apply hnot
        rw [hplan]
        simp only [List.map_map, List.mem_map]
        exact ⟨u, hin, rfl⟩
      · exact fefoLE_expiry
          ((eligibleSorted_sorted now vaccineID units channels).rel_of_mem_take_of_mem_drop hs hin)

/-- Witness for C1: three stored units expiring at 30, 10 and 20; an order for two takes the
units expiring at 10 and 20, in that order. -/
theorem planAllocation_fefo_witness :
    planAllocation 0 7 2 1 [sampleUnit 1 30, sampleUnit 2 10, sampleUnit 3 20] [sampleChannel]
        = .ok [⟨2, 1⟩, ⟨3, 1⟩] ∧
      ∃ selected rest : List Inventory,
        [(⟨2, 1⟩ : PlanEntry), ⟨3, 1⟩] = selected.map PlanEntry.ofUnit ∧ selected.length = 2 ∧
        [(⟨2, 1⟩ : PlanEntry), ⟨3, 1⟩].length = 2 ∧
        (selected ++ rest).Perm
          ([sampleUnit 1 30, sampleUnit 2 10, sampleUnit 3 20].filter
            (eligible 0 7 [sampleChannel])) ∧
        (selected ++ rest).Sorted fefoLE ∧
        ∀ s ∈ selected, ∀ u ∈ [sampleUnit 1 30, sampleUnit 2 10, sampleUnit 3 20],
          eligible 0 7 [sampleChannel] u = true →
          u.ID ∉ [(⟨2, 1⟩ : PlanEntry), ⟨3, 1⟩].map PlanEntry.inventoryUnitID →
          s.ExpiryDate ≤ u.ExpiryDate :=
  ⟨rfl,
   planAllocation_fefo 0 7 2 1 [sampleUnit 1 30, sampleUnit 2 10, sampleUnit 3 20]
     [sampleChannel] [⟨2, 1⟩, ⟨3, 1⟩] rfl⟩

theorem order_step_change (o o2 : Order) (e : OrderEvent) (h : o.step e = .ok o2) :
    statusStep o.Status o2.Status := by
  unfold statusStep
  cases e with
  | process now =>
    simp only [Order.step] at h
    split at h
    · rename_i hs
      injection h with h
      subst h
      right
      simp only [OrderStatus.code] at hs ⊢
      rw [hs]
      decide
    · injection h with h
      subst h
      exact Or.inl rfl
  | dispatched now outcomes =>
    simp only [Order.step] at h
    split at h
    · rename_i hs
      split at h
      · injection h with h
        subst h
        right
        simp only [OrderStatus.code] at hs ⊢
        rw [hs]
        decide
      · injection h with h
        subst h
        right
        simp only [OrderStatus.code] at hs ⊢
        rw [hs]
        decide
    · cases h
  | cancel =>
    simp only [Order.step] at h
    split at h
    · rename_i hs
      injection h with h
      subst h
      right
      simp only [OrderStatus.code] at hs ⊢
      rcases hs.1 with hs | hs <;> rw [hs] <;> decide
    · cases h
  | retry =>
    simp only [Order.step] at h
    split at h
    · rename_i hs
      injection h with h
      subst h
      right
      simp only [OrderStatus.code] at hs ⊢
      rw [hs]
      decide
    · cases h
  | cancelWithScrap =>
    simp only [Order.step] at h
    split at h
    · rename_i hs
      injection h with h
      subst h
      right
      simp only [OrderStatus.code] at hs ⊢
      rw [hs]
      decide
    · cases h

theorem order_observed_head (o : Order) (es : List OrderEvent) :
    ∃ rest, o.observed es = o.Status :: rest := by
  induction es generalizing o with
  | nil => exact ⟨[], rfl⟩
  | cons e es ih =>
    simp only [Order.observed]
    split
    · exact ⟨_, rfl⟩
    · exact ih o

theorem order_observed_chain (o : Order) (es : List OrderEvent) :
    List.Chain' statusStep (o.observed es) := by
  induction es generalizing o with
  | nil => simp [Order.observed]
  | cons e es ih =>
    simp only [Order.observed]
    split
    · rename_i o2 hstep
      obtain ⟨rest, hrest⟩ := order_observed_head o2 es
      have hc := ih o2
      rw [hrest] at hc ⊢
      exact List.Chain'.cons (order_step_change o o2 e hstep) hc
    · exact ih o

/-- Counterexample for C3: an order whose dispatch failed is in exception (4); the manual retry
moves it to processing (1) and the cancel with scrap bookkeeping moves it to cancelled (3), and
neither 4 to 1 nor 4 to 3 is an edge of the graph the claim lists. -/
theorem order_exception_leaves_graph :
    Order.observed Order.zero
        [.process 5, .dispatched 9 [true, false], .retry, .dispatched 15 [true]] =
      [0, 1, 4, 1, 2] ∧
    Order.observed Order.zero [.process 5, .dispatched 9 [true, false], .cancelWithScrap] =
      [0, 1, 4, 3] ∧
    legalTransition 4 1 = false ∧ legalTransition 4 3 = false ∧
    ¬ (∀ (o : Order) (e : OrderEvent) (o2 : Order), o.step e = .ok o2 →
        o2.Status ≠ o.Status → legalTransition o.Status o2.Status = true) := by
  refine ⟨rfl, rfl, rfl, rfl, ?_⟩
  intro h
  have h2 := h { Order.zero with Status := 4 } .retry
    { Order.zero with Status := 1 } rfl (by decide)
  exact absurd h2 (by decide)

/-- C3, amended: every status change of an order follows the graph pending to processing,
processing to completed or exception, pending or processing to cancelled, or is one of the two
manual resolutions of an exception order (retry, to processing; cancel with scrap bookkeeping, to
cancelled); no change leads back to pending (code 0) and none leaves completed (2) or cancelled
(3). This holds for each accepted event and along every sequence of events. -/
theorem order_status_changes_legal (o : Order) (es : List OrderEvent) :
    (∀ (e : OrderEvent) (o2 : Order), o.step e = .ok o2 → o2.Status ≠ o.Status →
        (legalTransition o.Status o2.Status = true ∨
          manualResolution o.Status o2.Status = true) ∧
        (manualResolution o.Status o2.Status = true → o.Status = 4) ∧
        o2.Status ≠ 0 ∧ o.Status ≠ 2 ∧ o.Status ≠ 3) ∧
      List.Chain' statusStep (o.observed es) := by
  refine ⟨?_, order_observed_chain o es⟩
  intro e o2 h hne
  rcases order_step_change o o2 e h with heq | ⟨h1, h2, h3, h4⟩
  · exact absurd heq.symm hne
  · refine ⟨h1, ?_, h2, h3, h4⟩
    intro hm
    unfold manualResolution at hm
    simp only [Bool.or_eq_true, Bool.and_eq_true, beq_iff_eq] at hm
    rcases hm with ⟨hm, _⟩ | ⟨hm, _⟩ <;> exact hm

/-- Witness for C3: a new order is processed, its dispatch fails, it is retried by hand, the
second dispatch succeeds, and a later cancel is rejected; the statuses observed are
0, 1, 4, 1, 2. -/
theorem order_status_changes_legal_witness :
    Order.observed Order.zero
        [.process 5, .dispatched 9 [true, false], .retry, .dispatched 15 [true], .cancel] =
      [0, 1, 4, 1, 2] ∧
      List.Chain' statusStep
        (Order.observed Order.zero
          [.process 5, .dispatched 9 [true, false], .retry, .dispatched 15 [true],
           .cancel]) :=
  ⟨rfl, (order_status_changes_legal Order.zero
    [.process 5, .dispatched 9 [true, false], .retry, .dispatched 15 [true], .cancel]).2⟩

/-- Two facts on the quantity bound of a channel: a channel created with the declared column
defaults has capacity 20 and quantity 0 and so lies within `0 ≤ quantity ≤ capacity`; and the
dispense commit, which is taken only while the quantity is positive, takes one unit and keeps a
channel within the bound. Stocking and updating a channel are not covered. -/
theorem channel_bounds_created_and_commit :
    (∀ c : Channel, c.Capacity = 0 → c.Quantity = 0 →
        c.created.Capacity = 20 ∧ c.created.Quantity = 0 ∧ c.created.quantityInBounds) ∧
      (∀ (now : Int) (c : Channel) (u : Inventory) (c2 : Channel) (u2 : Inventory),
        c.quantityInBounds → dispenseCommit now c u = some (c2, u2) →
        c2.Quantity = c.Quantity - 1 ∧ c2.Capacity = c.Capacity ∧ c2.quantityInBounds) := by
  constructor
  · intro c hcap hq
    have h1 : c.created.Capacity = 20 := by
      simp only [Channel.created, hcap]
      decide
    have h2 : c.created.Quantity = 0 := by
      simp only [Channel.created, hq]
      decide
    refine ⟨h1, h2, ?_⟩
    unfold Channel.quantityInBounds
    rw [h1, h2]
    decide
  · intro now c u c2 u2 hb hcommit
    unfold dispenseCommit at hcommit
    split at hcommit
    · rename_i hguard
      injection hcommit with hcommit
      injection hcommit with hc hu
      subst hc
      unfold Channel.quantityInBounds at hb ⊢
      refine ⟨rfl, rfl, ?_, ?_⟩
      · show 0 ≤ c.Quantity - 1
        omega
      · show c.Quantity - 1 ≤ c.Capacity
        omega
    · cases hcommit

/-- An instance of the two facts: the zero-valued channel is created within the bound, and a
commit on a channel holding 3 of 20 leaves 2 of 20. -/
theorem channel_bounds_created_and_commit_witness :
    (Channel.zero.created.Capacity = 20 ∧ Channel.zero.created.Quantity = 0 ∧
        Channel.zero.created.quantityInBounds) ∧
      sampleChannel.quantityInBounds ∧
      dispenseCommit 50 sampleChannel (sampleUnit 1 100) =
        some ({ sampleChannel with Quantity := 2, LastOutbound := some 50 },
              { sampleUnit 1 100 with Status := 2, OutboundTime := some 50 }) ∧
      ({ sampleChannel with Quantity := 2, LastOutbound := some 50 } : Channel).Quantity
          = sampleChannel.Quantity - 1 ∧
      ({ sampleChannel with Quantity := 2, LastOutbound := some 50 } : Channel).Capacity
          = sampleChannel.Capacity ∧
      ({ sampleChannel with Quantity := 2, LastOutbound := some 50 } : Channel).quantityInBounds :=
  ⟨channel_bounds_created_and_commit.1 Channel.zero rfl rfl, by decide, rfl,
   channel_bounds_created_and_commit.2 50 sampleChannel (sampleUnit 1 100)
     { sampleChannel with Quantity := 2, LastOutbound := some 50 }
     { sampleUnit 1 100 with Status := 2, OutboundTime := some 50 } (by decide) rfl⟩

theorem record_extends (traces : List Trace) (e : TraceEntry) :
    traces <+: TraceRecorder.record traces e := by
  unfold TraceRecorder.record
  split
  · exact List.prefix_refl traces
  · exact List.prefix_append traces _

theorem record_all_extends (movements : List TraceEntry) (traces : List Trace) :
    traces <+: movements.foldl TraceRecorder.record traces := by
  induction movements generalizing traces with
  | nil => exact List.prefix_refl traces
  | cons e es ih =>
    simp only [List.foldl_cons]
    exact (record_extends traces e).trans (ih (TraceRecorder.record traces e))

theorem traceEffect_extends (r : Route) (movements : List TraceEntry) (traces : List Trace) :
    traces <+: traceEffect r movements traces := by
  unfold traceEffect
  split
  · exact List.prefix_refl traces
  · exact record_all_extends movements traces

/-- C5: trace records have no update or delete path. Every route registered on the
`/api/v1/traces` group uses `GET` (they are the two query routes) and no registered route with a
path under that prefix uses another method; of the routes that are not `GET`, the wiring of
`main` gives only the inbound and the outbound route a way to the trace repository; serving a
request of any route leaves every stored trace in place and unchanged, a `GET` route adding
nothing and any other route only appending; and the `Trace` record declares neither an update
timestamp nor a soft-delete marker. -/
theorem trace_records_append_only :
    (∀ r ∈ registeredRoutes, r.group = "/api/v1/traces" → r.method = Method.GET) ∧
      (registeredRoutes.filter (fun r => r.group == "/api/v1/traces")).map
          (fun r => (r.method, r.path)) =
        [(Method.GET, "/api/v1/traces/:trace_code"),
         (Method.GET, "/api/v1/traces/batch/:batch_no")] ∧
      (∀ r ∈ registeredRoutes,
        "/api/v1/traces".data.isPrefixOf r.path.data = true → r.method = Method.GET) ∧
      (registeredRoutes.filter (fun r => r.method != Method.GET && r.reaches "traceRepo")).map
          (fun r => (r.method, r.path)) =
        [(Method.POST, "/api/v1/inventory/inbound"),
         (Method.POST, "/api/v1/inventory/outbound")] ∧
      (∀ (r : Route) (movements : List TraceEntry) (traces : List Trace),
        traces <+: traceEffect r movements traces ∧
        traces.length ≤ (traceEffect r movements traces).length ∧
        (∀ (i : Nat) (t : Trace), traces[i]? = some t →
          (traceEffect r movements traces)[i]? = some t) ∧
        (∀ t ∈ traces, t ∈ traceEffect r movements traces) ∧
        (r.method = Method.GET → traceEffect r movements traces = traces)) ∧
      hasField traceFields "UpdatedAt" = false ∧ hasField traceFields "DeletedAt" = false ∧
      hasField alarmFields "UpdatedAt" = true ∧ hasField inventoryFields "DeletedAt" = true := by
  refine ⟨by decide, by decide, by decide, by decide, ?_, by decide, by decide, by decide,
    by decide⟩
  intro r movements traces
  have hp := traceEffect_extends r movements traces
  refine ⟨hp, hp.length_le, ?_, ?_, ?_⟩
  · intro i t hi
    obtain ⟨rest, hrest⟩ := hp
    rw [← hrest]
    have hlt : i < traces.length := by
      by_contra hge
      rw [List.getElem?_eq_none (Nat.le_of_not_lt hge)] at hi
      cases hi
    rw [List.getElem?_append_left hlt]
    exact hi
  · intro t ht
    exact hp.subset ht
  · intro hget
    unfold traceEffect
    rw [if_pos hget]

/-- Witness for C5: serving an outbound request on a store that holds one trace appends the
outbound trace and leaves the stored one first and unchanged; replaying the request adds
nothing. -/
theorem trace_records_append_only_witness :
    traceEffect ⟨"/api/v1/inventory", .POST, "/api/v1/inventory/outbound", []⟩ [sampleMovement]
        [sampleTrace] =
      [sampleTrace,
       { ID := 2, TraceCode := "T2", InventoryID := some 2, Operation := "OUTBOUND",
         OperationName := "", FromLocation := "A1", ToLocation := "window",
         Temperature := none, OperatorID := some 9, OperatorName := "", Remark := "",
         OperatedAt := 200, CreatedAt := 200 }] ∧
    traceEffect ⟨"/api/v1/inventory", .POST, "/api/v1/inventory/outbound", []⟩
        [sampleMovement, sampleMovement] [sampleTrace] =
      traceEffect ⟨"/api/v1/inventory", .POST, "/api/v1/inventory/outbound", []⟩
        [sampleMovement] [sampleTrace] ∧
    [sampleTrace] <+:
      traceEffect ⟨"/api/v1/inventory", .POST, "/api/v1/inventory/outbound", []⟩
        [sampleMovement] [sampleTrace] :=
  ⟨by decide, by decide,
   (trace_records_append_only.2.2.2.2.1
      ⟨"/api/v1/inventory", .POST, "/api/v1/inventory/outbound", []⟩ [sampleMovement]
      [sampleTrace]).1⟩

theorem alarm_handle_sameRecord (req : HandleRequest) (a : Alarm) :
    a.sameRecord (a.handle req) := by
  simp [Alarm.sameRecord, Alarm.handle]

theorem alarm_sameRecord_refl (a : Alarm) : a.sameRecord a := by
  simp [Alarm.sameRecord]

theorem alarmEffect_forall₂ (r : Route) (req : HandleRequest) (alarms : List Alarm) :
    List.Forall₂ Alarm.sameRecord alarms (alarmEffect r req alarms) := by
  unfold alarmEffect
  split
  · induction alarms with
    | nil => exact List.Forall₂.nil
    | cons a as ih =>
      simp only [List.map_cons]
      refine List.Forall₂.cons ?_ ih
      split
      · exact alarm_handle_sameRecord req a
      · exact alarm_sameRecord_refl a
  · induction alarms with
    | nil => exact List.Forall₂.nil
    | cons a as ih => exact List.Forall₂.cons (alarm_sameRecord_refl a) ih

/-- Counterexample for C6: the alarms group registers `POST /api/v1/alarms/:id/handle`, and
serving it for an open alarm changes that alarm (status, handler, handling time and result). -/
theorem alarm_handle_route_changes_alarm :
    ¬ (∀ r ∈ registeredRoutes, r.group = "/api/v1/alarms" →
        alarmEffect r { id := 1, status := 2, operator := 9, result := "checked", now := 200 }
          [sampleAlarm] = [sampleAlarm]) := by
  decide

/-- C6, amended: the alarms group registers one read route and the handle route, and neither a
`PUT` nor a `DELETE`; a `GET` route leaves the stored alarms as they are, and the handle route
keeps the number and order of the alarms, changes no alarm other than the one the request names,
and on that one writes only the status and the handled fields. -/
theorem alarm_routes_update_only_handled_fields :
    (registeredRoutes.filter (fun r => r.group == "/api/v1/alarms")).map
          (fun r => (r.method, r.path, r.handlers.getLast?)) =
        [(Method.GET, "/api/v1/alarms", some "AlarmHandler.List"),
         (Method.POST, "/api/v1/alarms/:id/handle", some "AlarmHandler.Handle")] ∧
      (∀ (r : Route) (req : HandleRequest) (alarms : List Alarm),
        (r.method = Method.GET → alarmEffect r req alarms = alarms) ∧
        (alarmEffect r req alarms).length = alarms.length ∧
        List.Forall₂ Alarm.sameRecord alarms (alarmEffect r req alarms) ∧
        List.Forall₂ (fun a b => a.ID ≠ req.id → b = a) alarms (alarmEffect r req alarms)) ∧
      hasField alarmFields "UpdatedAt" = true ∧ hasField alarmFields "DeletedAt" = false := by
  refine ⟨by decide, ?_, by decide, by decide⟩
  intro r req alarms
  refine ⟨?_, ?_, alarmEffect_forall₂ r req alarms, ?_⟩
  · intro hget
    unfold alarmEffect
    rw [if_neg]
    rintro ⟨hpost, _⟩
    rw [hget] at hpost
    cases hpost
  · unfold alarmEffect
    split <;> simp
  · unfold alarmEffect
    split
    · induction alarms with
      | nil => exact List.Forall₂.nil
      | cons a as ih =>
        simp only [List.map_cons]
        refine List.Forall₂.cons ?_ ih
        intro hne
        rw [if_neg hne]
    · induction alarms with
      | nil => exact List.Forall₂.nil
      | cons a as ih => exact List.Forall₂.cons (fun _ => rfl) ih

/-- Witness for C6: handling alarm 1 through the handle route sets its status to 2 and records
the handler, and leaves every other field of the record as it was. -/
theorem alarm_routes_update_only_handled_fields_witness :
    alarmEffect ⟨"/api/v1/alarms", .POST, "/api/v1/alarms/:id/handle", []⟩
        { id := 1, status := 2, operator := 9, result := "checked", now := 200 } [sampleAlarm] =
      [{ sampleAlarm with
          Status := 2, HandledBy := some 9, HandledAt := some 200, HandleResult := "checked",
          UpdatedAt := 200 }] ∧
    List.Forall₂ Alarm.sameRecord [sampleAlarm]
      (alarmEffect ⟨"/api/v1/alarms", .POST, "/api/v1/alarms/:id/handle", []⟩
        { id := 1, status := 2, operator := 9, result := "checked", now := 200 } [sampleAlarm]) :=
  ⟨by decide,
   ((alarm_routes_update_only_handled_fields.2.1
      ⟨"/api/v1/alarms", .POST, "/api/v1/alarms/:id/handle", []⟩
      { id := 1, status := 2, operator := 9, result := "checked", now := 200 }
      [sampleAlarm]).2.2.1)⟩

theorem order_literal_status (elems : List OrderAssign) (o : Order)
    (h : ∀ a ∈ elems, a.field ≠ "Status") :
    (elems.foldl OrderAssign.apply o).Status = o.Status := by
  induction elems generalizing o with
  | nil => rfl
  | cons a as ih =>
    simp only [List.foldl_cons]
    rw [ih (OrderAssign.apply o a) (fun b hb => h b (List.mem_cons_of_mem a hb))]
    have ha := h a (List.mem_cons_self a as)
    cases a <;> first | rfl | exact absurd rfl ha

theorem orderItem_literal_visionVerified (elems : List OrderItemAssign) (it : OrderItem)
    (h : ∀ a ∈ elems, a.field ≠ "VisionVerified") :
    (elems.foldl OrderItemAssign.apply it).VisionVerified = it.VisionVerified := by
  induction elems generalizing it with
  | nil => rfl
  | cons a as ih =>
    simp only [List.foldl_cons]
    rw [ih (OrderItemAssign.apply it a) (fun b hb => h b (List.mem_cons_of_mem a hb))]
    have ha := h a (List.mem_cons_self a as)
    cases a <;> first | rfl | exact absurd rfl ha

/-- C7: an order built by a composite literal that does not set `Status` has status 0; 0 is both
the zero value of the field and its declared column default, so the created row has status 0;
and 0 is the code of pending in the encoding 0 pending, 1 processing, 2 completed, 3 cancelled,
4 exception. -/
theorem new_order_is_pending (elems : List OrderAssign)
    (h : ∀ a ∈ elems, a.field ≠ "Status") :
    (Order.literal elems).Status = 0 ∧
      createdInt orderFields "Status" (Order.literal elems).Status = 0 ∧
      (findField orderFields "Status").map (fun f => (f.type, zeroValue f.type, columnDefault f))
        = some (GoType.int8, GoVal.int 0, some (GoVal.int 0)) ∧
      OrderStatus.ofCode (Order.literal elems).Status = some OrderStatus.Pending ∧
      [OrderStatus.Pending, .Processing, .Completed, .Cancelled, .Exception].map OrderStatus.code
        = [0, 1, 2, 3, 4] := by
  have hs : (Order.literal elems).Status = 0 := by
    unfold Order.literal
    rw [order_literal_status elems Order.zero h]
    rfl
  rw [hs]
  exact ⟨rfl, by decide, by decide, by decide, by decide⟩

/-- Witness for C7: an order literal that sets the order number, the vaccine and the quantity. -/
theorem new_order_is_pending_witness :
    (Order.literal [.OrderNo "A1", .VaccineID 7, .Quantity 2]).Status = 0 ∧
      createdInt orderFields "Status"
        (Order.literal [.OrderNo "A1", .VaccineID 7, .Quantity 2]).Status = 0 ∧
      (findField orderFields "Status").map (fun f => (f.type, zeroValue f.type, columnDefault f))
        = some (GoType.int8, GoVal.int 0, some (GoVal.int 0)) ∧
      OrderStatus.ofCode (Order.literal [.OrderNo "A1", .VaccineID 7, .Quantity 2]).Status
        = some OrderStatus.Pending ∧
      [OrderStatus.Pending, .Processing, .Completed, .Cancelled, .Exception].map OrderStatus.code
        = [0, 1, 2, 3, 4] :=
  new_order_is_pending [.OrderNo "A1", .VaccineID 7, .Quantity 2] (by decide)

/-- C9: an order item built by a composite literal that does not set `VisionVerified` is
unverified; `false` is both the zero value of the field and its declared column default, so the
created row is unverified; a literal whose last element for the field sets it to `true` is the
way to a verified item. -/
theorem new_order_item_is_unverified (elems : List OrderItemAssign)
    (h : ∀ a ∈ elems, a.field ≠ "VisionVerified") :
    (OrderItem.literal elems).VisionVerified = false ∧
      createdBool orderItemFields "VisionVerified" (OrderItem.literal elems).VisionVerified
        = false ∧
      (findField orderItemFields "VisionVerified").map
          (fun f => (f.type, zeroValue f.type, columnDefault f))
        = some (GoType.bool, GoVal.bool false, some (GoVal.bool false)) ∧
      (OrderItem.literal (elems ++ [.VisionVerified true])).VisionVerified = true := by
  have hs : (OrderItem.literal elems).VisionVerified = false := by
    unfold OrderItem.literal
    rw [orderItem_literal_visionVerified elems OrderItem.zero h]
    rfl
  rw [hs]
  refine ⟨rfl, by decide, by decide, ?_⟩
  simp [OrderItem.literal, List.foldl_append, OrderItemAssign.apply]

/-- Witness for C9: an item literal that sets the order, the unit and the trace code. -/
theorem new_order_item_is_unverified_witness :
    (OrderItem.literal [.OrderID 3, .InventoryID 2, .TraceCode "T2"]).VisionVerified = false ∧
      createdBool orderItemFields "VisionVerified"
        (OrderItem.literal [.OrderID 3, .InventoryID 2, .TraceCode "T2"]).VisionVerified
        = false ∧
      (findField orderItemFields "VisionVerified").map
          (fun f => (f.type, zeroValue f.type, columnDefault f))
        = some (GoType.bool, GoVal.bool false, some (GoVal.bool false)) ∧
      (OrderItem.literal
        ([.OrderID 3, .InventoryID 2, .TraceCode "T2"] ++ [.VisionVerified true])).VisionVerified
        = true :=
  new_order_item_is_unverified [.OrderID 3, .InventoryID 2, .TraceCode "T2"] (by decide)

theorem registerDefaults_defaults (g : Viper) :
    (registerDefaults g).defaults = registeredDefaults ++ g.defaults := by
  unfold registerDefaults
  simp only [Viper.SetConfigName, Viper.SetConfigType, Viper.AddConfigPath, Viper.SetDefault]
  split_ifs <;> rfl

theorem registerDefaults_config (g : Viper) : (registerDefaults g).config = g.config := by
  unfold registerDefaults
  simp only [Viper.SetConfigName, Viper.SetConfigType, Viper.AddConfigPath, Viper.SetDefault]
  split_ifs <;> rfl

theorem registerDefaults_name_type (g : Viper) :
    (registerDefaults g).configName = "config" ∧ (registerDefaults g).configType = "yaml" := by
  unfold registerDefaults
  simp only [Viper.SetConfigName, Viper.SetConfigType, Viper.AddConfigPath, Viper.SetDefault]
  split_ifs <;> exact ⟨rfl, rfl⟩

theorem decodeFields_ok (w : WeakDecode) (g : Viper) (cfg : Config)
    (h : decodeFields g w = .ok cfg) :
    decodeInt w g "server.port" = .ok cfg.Server.Port ∧
      decodeInt w g "server.wsPort" = .ok cfg.Server.WSPort ∧
      decodeInt w g "server.grpcPort" = .ok cfg.Server.GRPCPort ∧
      decodeStr w g "server.mode" = .ok cfg.Server.Mode ∧
      decodeStr w g "database.host" = .ok cfg.Database.Host ∧
      decodeInt w g "database.port" = .ok cfg.Database.Port ∧
      decodeStr w g "database.user" = .ok cfg.Database.User ∧
      decodeStr w g "database.password" = .ok cfg.Database.Password ∧
      decodeStr w g "database.dbname" = .ok cfg.Database.DBName ∧
      decodeStr w g "database.sslmode" = .ok cfg.Database.SSLMode ∧
      decodeInt w g "database.maxIdleConns" = .ok cfg.Database.MaxIdleConns ∧
      decodeInt w g "database.maxOpenConns" = .ok cfg.Database.MaxOpenConns ∧
      decodeStr w g "redis.addr" = .ok cfg.Redis.Addr ∧
      decodeStr w g "redis.password" = .ok cfg.Redis.Password ∧
      decodeInt w g "redis.db" = .ok cfg.Redis.DB ∧
      decodeStr w g "jwt.secret" = .ok cfg.JWT.Secret ∧
      decodeInt w g "jwt.accessExpireMin" = .ok cfg.JWT.AccessExpireMin ∧
      decodeInt w g "jwt.refreshExpireHr" = .ok cfg.JWT.RefreshExpireHr ∧
      decodeStr w g "log.level" = .ok cfg.Log.Level ∧
      decodeStr w g "log.path" = .ok cfg.Log.Path ∧
      decodeBool w g "rateLimit.enabled" = .ok cfg.RateLimit.Enabled ∧
      decodeInt w g "rateLimit.rps" = .ok cfg.RateLimit.RPS ∧
      decodeInt w g "rateLimit.burst" = .ok cfg.RateLimit.Burst ∧
      decodeStr w g "his.apiKey" = .ok cfg.HIS.APIKey ∧
      decodeStr w g "his.callbackUrl" = .ok cfg.HIS.CallbackURL := by
  unfold decodeFields at h
  simp only [bind, Except.bind, pure, Except.pure] at h
  repeat (split at h; · cases h)
  injection h with h
  subst h
  simp only [*, and_self]

theorem unmarshal_ok (w : WeakDecode) (g : Viper) (cfg : Config)
    (h : g.Unmarshal w = .ok cfg) : decodeFields g w = .ok cfg := by
  unfold Viper.Unmarshal at h
  split at h
  · cases h
  · split at h
    · cases h
    · exact h

theorem decodeInt_settled (w : WeakDecode) (g : Viper) (key : String) (d n : Int)
    (hd : g.defaults.lookup (lower key) = some (.int d)) (hgo : goInt d = some d)
    (h : decodeInt w g key = .ok n) :
    settledInt w (g.config (lower key)) d n := by
  unfold decodeInt Viper.Get at h
  unfold settledInt
  cases hc : g.config (lower key) with
  | none =>
    simp only [hc, hd, hgo] at h ⊢
    injection h with h
    exact h.symm
  | some v =>
    simp only [hc] at h ⊢
    cases v with
    | int m =>
      simp only at h ⊢
      cases hg : goInt m with
      | some k =>
        simp only [hg] at h ⊢
        injection h with h
        exact h.symm
      | none =>
        simp only [hg] at h ⊢
        split at h
        · rename_i hw
          injection h with h
          rw [hw, h]
        · cases h
    | str s =>
      simp only at h ⊢
      split at h
      · rename_i hw
        injection h with h
        rw [hw, h]
      · cases h
    | bool b =>
      simp only at h ⊢
      split at h
      · rename_i hw
        injection h with h
        rw [hw, h]
      · cases h
    | mapping =>
      simp only at h ⊢
      split at h
      · rename_i hw
        injection h with h
        rw [hw, h]
      · cases h
    | other t =>
      simp only at h ⊢
      split at h
      · rename_i hw
        injection h with h
        rw [hw, h]
      · cases h

theorem decodeStr_settled (w : WeakDecode) (g : Viper) (key : String) (d n : String)
    (hd : g.defaults.lookup (lower key) = some (.str d)) (h : decodeStr w g key = .ok n) :
    settledStr w (g.config (lower key)) d n := by
  unfold decodeStr Viper.Get at h
  unfold settledStr
  cases hc : g.config (lower key) with
  | none =>
    simp only [hc, hd] at h ⊢
    injection h with h
    exact h.symm
  | some v =>
    simp only [hc] at h ⊢
    cases v with
    | str m =>
      simp only at h ⊢
      injection h with h
      exact h.symm
    | int m =>
      simp only at h ⊢
      split at h
      · rename_i hw
        injection h with h
        rw [hw, h]
      · cases h
    | bool b =>
      simp only at h ⊢
      split at h
      · rename_i hw
        injection h with h
        rw [hw, h]
      · cases h
    | mapping =>
      simp only at h ⊢
      split at h
      · rename_i hw
        injection h with h
        rw [hw, h]
      · cases h
    | other t =>
      simp only at h ⊢
      split at h
      · rename_i hw
        injection h with h
        rw [hw, h]
      · cases h

theorem decodeBool_settled (w : WeakDecode) (g : Viper) (key : String) (d n : Bool)
    (hd : g.defaults.lookup (lower key) = some (.bool d)) (h : decodeBool w g key = .ok n) :
    settledBool w (g.config (lower key)) d n := by
  unfold decodeBool Viper.Get at h
  unfold settledBool
  cases hc : g.config (lower key) with
  | none =>
    simp only [hc, hd] at h ⊢
    injection h with h
    exact h.symm
  | some v =>
    simp only [hc] at h ⊢
    cases v with
    | bool m =>
      simp only at h ⊢
      injection h with h
      exact h.symm
    | int m =>
      simp only at h ⊢
      split at h
      · rename_i hw
        injection h with h
        rw [hw, h]
      · cases h
    | str s =>
      simp only at h ⊢
      split at h
      · rename_i hw
        injection h with h
        rw [hw, h]
      · cases h
    | mapping =>
      simp only at h ⊢
      split at h
      · rename_i hw
        injection h with h
        rw [hw, h]
      · cases h
    | other t =>
      simp only at h ⊢
      split at h
      · rename_i hw
        injection h with h
        rw [hw, h]
      · cases h

theorem load_of_file (w : WeakDecode) (disk : Disk) (g : Viper) (find : String → Option Value)
    (hfile : configFile disk g = some (.settings find)) :
    Load w disk g =
      match ({ registerDefaults g with config := find } : Viper).Unmarshal w with
      | .error err => (.error err, { registerDefaults g with config := find })
      | .ok cfg => (.ok cfg, { registerDefaults g with config := find }) := by
  unfold configFile at hfile
  unfold Load Viper.ReadInConfig
  simp only [hfile]

/-- C10: when `Load` reads a configuration file and returns a `Config`, each of the eighteen
defaulted keys that the file omits has its default in that `Config`, and a key the file sets
takes the file's value in place of the default (an integer as the Go `int` it converts to). -/
theorem load_defaults_and_overrides (w : WeakDecode) (disk : Disk) (g : Viper)
    (find : String → Option Value) (cfg : Config)
    (hfile : configFile disk g = some (.settings find))
    (hload : (Load w disk g).1 = .ok cfg) :
    settledInt w (fileSetting find "server.port") 8080 cfg.Server.Port ∧
      settledInt w (fileSetting find "server.wsPort") 8081 cfg.Server.WSPort ∧
      settledInt w (fileSetting find "server.grpcPort") 9090 cfg.Server.GRPCPort ∧
      settledStr w (fileSetting find "server.mode") "debug" cfg.Server.Mode ∧
      settledStr w (fileSetting find "database.host") "localhost" cfg.Database.Host ∧
      settledInt w (fileSetting find "database.port") 5432 cfg.Database.Port ∧
      settledStr w (fileSetting find "database.sslmode") "disable" cfg.Database.SSLMode ∧
      settledInt w (fileSetting find "database.maxIdleConns") 10 cfg.Database.MaxIdleConns ∧
      settledInt w (fileSetting find "database.maxOpenConns") 100 cfg.Database.MaxOpenConns ∧
      settledStr w (fileSetting find "redis.addr") "localhost:6379" cfg.Redis.Addr ∧
      settledInt w (fileSetting find "redis.db") 0 cfg.Redis.DB ∧
      settledInt w (fileSetting find "jwt.accessExpireMin") 120 cfg.JWT.AccessExpireMin ∧
      settledInt w (fileSetting find "jwt.refreshExpireHr") 168 cfg.JWT.RefreshExpireHr ∧
      settledStr w (fileSetting find "log.level") "info" cfg.Log.Level ∧
      settledStr w (fileSetting find "log.path") "logs" cfg.Log.Path ∧
      settledBool w (fileSetting find "rateLimit.enabled") true cfg.RateLimit.Enabled ∧
      settledInt w (fileSetting find "rateLimit.rps") 100 cfg.RateLimit.RPS ∧
      settledInt w (fileSetting find "rateLimit.burst") 200 cfg.RateLimit.Burst := by
  rw [load_of_file w disk g find hfile] at hload
  split at hload
  · cases hload
  · rename_i cfg2 hum
    simp only at hload
    injection hload with hload
    subst hload
    obtain ⟨h0, h1, h2, h3, h4, h5, h6, h7, h8, h9, h10, h11, h12, h13, h14, h15, h16, h17,
      h18, h19, h20, h21, h22, h23, h24⟩ := decodeFields_ok w _ _ (unmarshal_ok w _ _ hum)
    have hd : ∀ (key : String) (v : Value),
        (registeredDefaults ++ g.defaults).lookup (lower key) = some v →
        ({ registerDefaults g with config := find } : Viper).defaults.lookup (lower key)
          = some v := by
      intro key v hk
      show (registerDefaults g).defaults.lookup (lower key) = some v
      rw [registerDefaults_defaults]
      exact hk
    exact
    ⟨decodeInt_settled w _ "server.port" 8080 _ (hd _ _ rfl) rfl h0,
     decodeInt_settled w _ "server.wsPort" 8081 _ (hd _ _ rfl) rfl h1,
     decodeInt_settled w _ "server.grpcPort" 9090 _ (hd _ _ rfl) rfl h2,
     decodeStr_settled w _ "server.mode" "debug" _ (hd _ _ rfl) h3,
     decodeStr_settled w _ "database.host" "localhost" _ (hd _ _ rfl) h4,
     decodeInt_settled w _ "database.port" 5432 _ (hd _ _ rfl) rfl h5,
     decodeStr_settled w _ "database.sslmode" "disable" _ (hd _ _ rfl) h9,
     decodeInt_settled w _ "database.maxIdleConns" 10 _ (hd _ _ rfl) rfl h10,
     decodeInt_settled w _ "database.maxOpenConns" 100 _ (hd _ _ rfl) rfl h11,
     decodeStr_settled w _ "redis.addr" "localhost:6379" _ (hd _ _ rfl) h12,
     decodeInt_settled w _ "redis.db" 0 _ (hd _ _ rfl) rfl h14,
     decodeInt_settled w _ "jwt.accessExpireMin" 120 _ (hd _ _ rfl) rfl h16,
     decodeInt_settled w _ "jwt.refreshExpireHr" 168 _ (hd _ _ rfl) rfl h17,
     decodeStr_settled w _ "log.level" "info" _ (hd _ _ rfl) h18,
     decodeStr_settled w _ "log.path" "logs" _ (hd _ _ rfl) h19,
     decodeBool_settled w _ "rateLimit.enabled" true _ (hd _ _ rfl) h20,
     decodeInt_settled w _ "rateLimit.rps" 100 _ (hd _ _ rfl) rfl h21,
     decodeInt_settled w _ "rateLimit.burst" 200 _ (hd _ _ rfl) rfl h22⟩

/-- The file of the witness for C10. -/
theorem witnessFile_read :
    configFile (diskWith
        [("server.port", .int 9000), ("database.port", .int 9223372036854775808),
          ("log.level", .str "warn")]) Viper.fresh =
      some (.settings (fun key =>
        ([("server.port", .int 9000), ("database.port", .int 9223372036854775808),
          ("log.level", .str "warn")] : List (String × Value)).lookup key)) :=
  rfl

/-- Witness for C10: a file that sets `server.port` to 9000, `database.port` to `2^63` and
`log.level` to `warn`; the loaded configuration has 9000, the wrapped `-2^63` and `warn`, and the
defaults elsewhere. -/
theorem load_defaults_and_overrides_witness :
    (Load strictDecode (diskWith
        [("server.port", .int 9000), ("database.port", .int 9223372036854775808),
          ("log.level", .str "warn")]) Viper.fresh).1 =
      .ok { defaultConfig with
        Server := { defaultConfig.Server with Port := 9000 }
        Database := { defaultConfig.Database with Port := -9223372036854775808 }
        Log := { defaultConfig.Log with Level := "warn" } } ∧
    settledInt strictDecode
      (fileSetting (fun key =>
        ([("server.port", .int 9000), ("database.port", .int 9223372036854775808),
          ("log.level", .str "warn")] : List (String × Value)).lookup key) "server.port") 8080 9000 ∧
    settledInt strictDecode
      (fileSetting (fun key =>
        ([("server.port", .int 9000), ("database.port", .int 9223372036854775808),
          ("log.level", .str "warn")] : List (String × Value)).lookup key) "server.wsPort") 8081 8081 ∧
    settledInt strictDecode
      (fileSetting (fun key =>
        ([("server.port", .int 9000), ("database.port", .int 9223372036854775808),
          ("log.level", .str "warn")] : List (String × Value)).lookup key) "database.port") 5432
      (-9223372036854775808) :=
  ⟨rfl,
   (load_defaults_and_overrides strictDecode (diskWith [("server.port", .int 9000), ("database.port", .int 9223372036854775808), ("log.level", .str "warn")]) Viper.fresh
      (fun key => ([("server.port", .int 9000), ("database.port", .int 9223372036854775808), ("log.level", .str "warn")] : List (String × Value)).lookup key)
      { defaultConfig with
        Server := { defaultConfig.Server with Port := 9000 }
        Database := { defaultConfig.Database with Port := -9223372036854775808 }
        Log := { defaultConfig.Log with Level := "warn" } } witnessFile_read rfl).1,
   (load_defaults_and_overrides strictDecode (diskWith [("server.port", .int 9000), ("database.port", .int 9223372036854775808), ("log.level", .str "warn")]) Viper.fresh
      (fun key => ([("server.port", .int 9000), ("database.port", .int 9223372036854775808), ("log.level", .str "warn")] : List (String × Value)).lookup key)
      { defaultConfig with
        Server := { defaultConfig.Server with Port := 9000 }
        Database := { defaultConfig.Database with Port := -9223372036854775808 }
        Log := { defaultConfig.Log with Level := "warn" } } witnessFile_read rfl).2.1,
   (load_defaults_and_overrides strictDecode (diskWith [("server.port", .int 9000), ("database.port", .int 9223372036854775808), ("log.level", .str "warn")]) Viper.fresh
      (fun key => ([("server.port", .int 9000), ("database.port", .int 9223372036854775808), ("log.level", .str "warn")] : List (String × Value)).lookup key)
      { defaultConfig with
        Server := { defaultConfig.Server with Port := 9000 }
        Database := { defaultConfig.Database with Port := -9223372036854775808 }
        Log := { defaultConfig.Log with Level := "warn" } } witnessFile_read rfl).2.2.2.2.2.1⟩

theorem load_empty_file (w : WeakDecode) :
    (Load w (diskWith []) Viper.fresh).1 = .ok defaultConfig := rfl

theorem load_viper (w : WeakDecode) (disk : Disk) (g : Viper) :
    (Load w disk g).2 =
      match configFile disk g with
      | some (.settings find) => { registerDefaults g with config := find }
      | _ => registerDefaults g := by
  unfold Load Viper.ReadInConfig configFile
  simp only
  cases hf : List.findSome? (fun dir => disk dir (registerDefaults g).configName)
      (registerDefaults g).configPaths with
  | none => rfl
  | some fd =>
    cases fd with
    | unreadable => rfl
    | malformed => rfl
    | settings find =>
      simp only
      split <;> rfl

theorem load_returns_decoded (w : WeakDecode) (disk : Disk) (g : Viper) (cfg : Config)
    (h : (Load w disk g).1 = .ok cfg) : (Load w disk g).2.Unmarshal w = .ok cfg := by
  unfold Load Viper.ReadInConfig at h ⊢
  simp only at h ⊢
  cases hf : List.findSome? (fun dir => disk dir (registerDefaults g).configName)
      (registerDefaults g).configPaths with
  | none =>
    rw [hf] at h
    cases h
  | some fd =>
    rw [hf] at h
    cases fd with
    | unreadable => cases h
    | malformed => cases h
    | settings find =>
      simp only at h ⊢
      split at h
      · cases h
      · rename_i c hum
        simp only at h
        rw [hum]
        exact h

theorem no_load_filter (calls : List Call) (h : ∀ c ∈ calls, c.callee ≠ "config.Load") :
    calls.filter (fun c => c.callee == "config.Load") = [] := by
  rw [List.filter_eq_nil_iff]
  intro c hc
  simp only [beq_iff_eq]
  exact h c hc

theorem wireComponents_no_load (cfg : Config) :
    ∀ c ∈ wireComponents cfg, c.callee ≠ "config.Load" := by
  unfold wireComponents
  simp only [List.forall_mem_append, List.forall_mem_cons]
  refine ⟨⟨?_, ?_⟩, ?_⟩
  · simp
  · split_ifs <;> simp
  · simp

theorem serverStarts_no_load (cfg : Config) :
    ∀ c ∈ serverStarts cfg, c.callee ≠ "config.Load" := by
  unfold serverStarts
  simp

theorem wireComponents_handedOut (cfg : Config) :
    ∀ c ∈ wireComponents cfg, ∀ a ∈ c.config, a ∈ cfg.handedOut := by
  unfold wireComponents Config.handedOut
  simp only [List.forall_mem_append, List.forall_mem_cons]
  refine ⟨⟨?_, ?_⟩, ?_⟩
  · simp
  · split_ifs <;> simp
  · simp

theorem serverStarts_handedOut (cfg : Config) :
    ∀ c ∈ serverStarts cfg, ∀ a ∈ c.config, a ∈ cfg.handedOut := by
  unfold serverStarts Config.handedOut
  simp

theorem startCalls_handedOut (cfg : Config) :
    ∀ c ∈ ([ ⟨"config.Load", []⟩,
             ⟨"logger.New", [.str cfg.Log.Level, .str cfg.Log.Path]⟩,
             ⟨"database.New", [.database cfg.Database]⟩ ] : List Call),
      ∀ a ∈ c.config, a ∈ cfg.handedOut := by
  unfold Config.handedOut
  simp

/-- The calls of a run of `main` in which `Load` returned `cfg`: the first three, then, as far
as the run gets, the Redis client, the components, the HTTP server and the two further
servers. -/
theorem main_calls_of_ok (w : WeakDecode) (disk : Disk) (dbOk redisOk : Bool)
    (listen : Option Nat) (g g2 : Viper) (cfg : Config)
    (hload : Load w disk g = (.ok cfg, g2)) :
    ∃ later : List Call,
      (main w disk dbOk redisOk listen g).calls =
        [ ⟨"config.Load", []⟩,
          ⟨"logger.New", [.str cfg.Log.Level, .str cfg.Log.Path]⟩,
          ⟨"database.New", [.database cfg.Database]⟩ ] ++ later ∧
      (∀ c ∈ later, c.callee ≠ "config.Load") ∧
      (∀ c ∈ later, ∀ a ∈ c.config, a ∈ cfg.handedOut) := by
  have h3 : ∀ c ∈ ([⟨"redis.New", [.redis cfg.Redis]⟩] : List Call),
      c.callee ≠ "config.Load" ∧ ∀ a ∈ c.config, a ∈ cfg.handedOut := by
    unfold Config.handedOut
    simp
  have h4 : ∀ c ∈ ([⟨"srv.ListenAndServe", []⟩] : List Call),
      c.callee ≠ "config.Load" ∧ ∀ a ∈ c.config, a ∈ cfg.handedOut := by
    simp
  have hw1 := wireComponents_no_load cfg
  have hw2 := wireComponents_handedOut cfg
  have hs1 := serverStarts_no_load cfg
  have hs2 := serverStarts_handedOut cfg
  unfold main
  rw [hload]
  simp only
  cases dbOk
  · exact ⟨[], by simp, by simp, by simp⟩
  · cases redisOk
    · refine ⟨[⟨"redis.New", [.redis cfg.Redis]⟩], by simp, ?_, ?_⟩
      · intro c hc
        exact (h3 c hc).1
      · intro c hc
        exact (h3 c hc).2
    · cases listen with
      | none =>
        refine ⟨[⟨"redis.New", [.redis cfg.Redis]⟩] ++ wireComponents cfg ++
          [⟨"srv.ListenAndServe", []⟩] ++ serverStarts cfg, by simp, ?_, ?_⟩
        · intro c hc
          simp only [List.mem_append] at hc
          rcases hc with ((hc | hc) | hc) | hc
          · exact (h3 c hc).1
          · exact hw1 c hc
          · exact (h4 c hc).1
          · exact hs1 c hc
        · intro c hc
          simp only [List.mem_append] at hc
          rcases hc with ((hc | hc) | hc) | hc
          · exact (h3 c hc).2
          · exact hw2 c hc
          · exact (h4 c hc).2
          · exact hs2 c hc
      | some k =>
        refine ⟨[⟨"redis.New", [.redis cfg.Redis]⟩] ++ wireComponents cfg ++
          [⟨"srv.ListenAndServe", []⟩] ++ (serverStarts cfg).take k, by simp, ?_, ?_⟩
        · intro c hc
          simp only [List.mem_append] at hc
          rcases hc with ((hc | hc) | hc) | hc
          · exact (h3 c hc).1
          · exact hw1 c hc
          · exact (h4 c hc).1
          · exact hs1 c (List.mem_of_mem_take hc)
        · intro c hc
          simp only [List.mem_append] at hc
          rcases hc with ((hc | hc) | hc) | hc
          · exact (h3 c hc).2
          · exact hw2 c hc
          · exact (h4 c hc).2
          · exact hs2 c (List.mem_of_mem_take hc)

theorem main_of_error (w : WeakDecode) (disk : Disk) (dbOk redisOk : Bool)
    (listen : Option Nat) (g : Viper) (err : LoadError)
    (h : (Load w disk g).1 = .error err) :
    main w disk dbOk redisOk listen g =
      { calls := [⟨"config.Load", []⟩], outcome := .exited 1, viper := (Load w disk g).2,
        ginReleaseMode := false } := by
  unfold main
  split
  · rename_i e g2 hload
    rw [hload]
  · rename_i cfg g2 hload
    rw [hload] at h
    cases h

theorem main_viper (w : WeakDecode) (disk : Disk) (dbOk redisOk : Bool)
    (listen : Option Nat) (g : Viper) :
    (main w disk dbOk redisOk listen g).viper = (Load w disk g).2 := by
  unfold main
  split <;> rename_i hload
  · rw [hload]
  · rw [hload]
    cases dbOk
    · rfl
    · cases redisOk
      · rfl
      · cases listen <;> rfl

/-- Counterexample for C8: `Load` works on the process-wide viper instance. Started on the
fresh instance it leaves a different one behind (type, search paths and defaults registered), and
what it returns depends on what the instance held before the call. -/
theorem load_uses_global_viper :
    (Load strictDecode (diskWith []) Viper.fresh).2 ≠ Viper.fresh ∧
      (Load strictDecode (diskWith []) Viper.fresh).1 = .ok defaultConfig ∧
      (Load strictDecode (diskWith []) (Viper.fresh.SetDefault "jwt.secret" (.str "k"))).1 =
        .ok { defaultConfig with JWT := { defaultConfig.JWT with Secret := "k" } } := by
  refine ⟨?_, rfl, rfl⟩
  intro h
  have h2 : (Load strictDecode (diskWith []) Viper.fresh).2.configType =
      Viper.fresh.configType := by
    rw [h]
  exact absurd h2 (by decide)

/-- C8, amended: `main` calls `config.Load` exactly once, as its first call, and every
configuration value a component receives from `main` is a field of the `Config` that call
returned; the state of the process-wide viper instance after `main` is the one `Load` left:
the name `config`, the type `yaml`, both search paths, the eighteen defaults in front of what
was registered before, and as settings those of the configuration file `Load` read (those held
before, when it read none); and the `Config` that `Load` returns is the decoding of that
instance. -/
theorem main_config_flow (w : WeakDecode) (disk : Disk) (dbOk redisOk : Bool)
    (listen : Option Nat) (g : Viper) :
    ((main w disk dbOk redisOk listen g).calls.filter
        (fun c => c.callee == "config.Load")).length = 1 ∧
      (main w disk dbOk redisOk listen g).calls.head? = some ⟨"config.Load", []⟩ ∧
      (∀ cfg : Config, (Load w disk g).1 = .ok cfg →
        ∀ c ∈ (main w disk dbOk redisOk listen g).calls, ∀ a ∈ c.config, a ∈ cfg.handedOut) ∧
      (main w disk dbOk redisOk listen g).viper = (Load w disk g).2 ∧
      ((Load w disk g).2 =
        match configFile disk g with
        | some (.settings find) => { registerDefaults g with config := find }
        | _ => registerDefaults g) ∧
      (∀ cfg : Config, (Load w disk g).1 = .ok cfg →
        (Load w disk g).2.Unmarshal w = .ok cfg) ∧
      (registerDefaults g).configName = "config" ∧ (registerDefaults g).configType = "yaml" ∧
      "./configs" ∈ (registerDefaults g).configPaths ∧ "." ∈ (registerDefaults g).configPaths ∧
      (registerDefaults g).defaults = registeredDefaults ++ g.defaults ∧
      (registerDefaults g).config = g.config := by
  refine ⟨?_, ?_, ?_, main_viper w disk dbOk redisOk listen g, load_viper w disk g,
    load_returns_decoded w disk g, (registerDefaults_name_type g).1,
    (registerDefaults_name_type g).2, ?_, ?_, registerDefaults_defaults g,
    registerDefaults_config g⟩
  · cases hl : Load w disk g with
    | mk r g2 =>
      cases r with
      | error err =>
        rw [main_of_error w disk dbOk redisOk listen g err (by rw [hl])]
        rfl
      | ok cfg =>
        obtain ⟨later, hcalls, hno, _⟩ :=
          main_calls_of_ok w disk dbOk redisOk listen g g2 cfg hl
        rw [hcalls, List.filter_append, no_load_filter later hno]
        rfl
  · cases hl : Load w disk g with
    | mk r g2 =>
      cases r with
      | error err =>
        rw [main_of_error w disk dbOk redisOk listen g err (by rw [hl])]
        rfl
      | ok cfg =>
        obtain ⟨later, hcalls, _, _⟩ :=
          main_calls_of_ok w disk dbOk redisOk listen g g2 cfg hl
        rw [hcalls]
        rfl
  · intro cfg hcfg
    cases hl : Load w disk g with
    | mk r g2 =>
      rw [hl] at hcfg
      simp only at hcfg
      subst hcfg
      obtain ⟨later, hcalls, _, hout⟩ :=
        main_calls_of_ok w disk dbOk redisOk listen g g2 cfg hl
      rw [hcalls]
      intro c hc
      rcases List.mem_append.mp hc with hc | hc
      · exact startCalls_handedOut cfg c hc
      · exact hout c hc
  · unfold registerDefaults
    simp only [Viper.SetConfigName, Viper.SetConfigType, Viper.AddConfigPath, Viper.SetDefault,
      List.contains_eq_any_beq]
    split_ifs <;> simp_all
  · unfold registerDefaults
    simp only [Viper.SetConfigName, Viper.SetConfigType, Viper.AddConfigPath, Viper.SetDefault,
      List.contains_eq_any_beq]
    split_ifs <;> simp_all

/-- Witness for C8: a run with an empty configuration file and both stores reachable loads the
configuration once, serves, and leaves the viper instance as `Load` left it; with a
`ListenAndServe` that fails at once the run still has loaded the configuration once and ends in
`log.Fatal`. -/
theorem main_config_flow_witness :
    ((main strictDecode (diskWith []) true true none Viper.fresh).calls.filter
        (fun c => c.callee == "config.Load")).length = 1 ∧
      (main strictDecode (diskWith []) true true none Viper.fresh).outcome = Outcome.served ∧
      (main strictDecode (diskWith []) true true none Viper.fresh).viper =
        (Load strictDecode (diskWith []) Viper.fresh).2 ∧
      ((main strictDecode (diskWith []) true true (some 0) Viper.fresh).calls.filter
        (fun c => c.callee == "config.Load")).length = 1 ∧
      (main strictDecode (diskWith []) true true (some 0) Viper.fresh).outcome =
        Outcome.fatal "HTTP服务启动失败" :=
  ⟨(main_config_flow strictDecode (diskWith []) true true none Viper.fresh).1, rfl,
   (main_config_flow strictDecode (diskWith []) true true none Viper.fresh).2.2.2.1,
   (main_config_flow strictDecode (diskWith []) true true (some 0) Viper.fresh).1, rfl⟩

theorem load_defaults_registered (w : WeakDecode) (disk : Disk) (g : Viper) :
    (Load w disk g).2.defaults = registeredDefaults ++ g.defaults := by
  rw [load_viper w disk g]
  split <;> exact registerDefaults_defaults g

theorem load_read_error (w : WeakDecode) (disk : Disk) (g : Viper) (err : LoadError)
    (h : ((registerDefaults g).ReadInConfig disk).1 = .error err) :
    (Load w disk g).1 = .error err := by
  unfold Load
  simp only
  cases hr : (registerDefaults g).ReadInConfig disk with
  | mk r g2 =>
    rw [hr] at h
    simp only at h
    subst h
    rfl

theorem load_unmarshal_error (w : WeakDecode) (disk : Disk) (g g2 : Viper) (err : LoadError)
    (hread : (registerDefaults g).ReadInConfig disk = (.ok (), g2))
    (hum : g2.Unmarshal w = .error err) :
    (Load w disk g).1 = .error err := by
  unfold Load
  simp only [hread, hum]

theorem load_error_cases (w : WeakDecode) (disk : Disk) (g : Viper) (err : LoadError)
    (h : (Load w disk g).1 = .error err) :
    ((registerDefaults g).ReadInConfig disk).1 = .error err ∨
      ∃ g2 : Viper, (registerDefaults g).ReadInConfig disk = (.ok (), g2) ∧
        g2.Unmarshal w = .error err := by
  unfold Load at h
  simp only at h
  cases hr : (registerDefaults g).ReadInConfig disk with
  | mk r g2 =>
    rw [hr] at h
    cases r with
    | error e =>
      left
      simp only at h ⊢
      injection h with h
      rw [h]
    | ok u =>
      right
      refine ⟨g2, rfl, ?_⟩
      simp only at h
      split at h
      · rename_i e hum
        simp only at h
        rw [hum, h]
      · simp only at h
        cases h

theorem readInConfig_not_found (disk : Disk) (g : Viper)
    (h : ∀ dir ∈ g.configPaths, disk dir g.configName = none) :
    (g.ReadInConfig disk).1 = .error .ConfigFileNotFound := by
  unfold Viper.ReadInConfig
  have hnone : g.configPaths.findSome? (fun dir => disk dir g.configName) = none := by
    rw [List.findSome?_eq_none_iff]
    exact h
  rw [hnone]

theorem registerDefaults_paths_of_nil (g : Viper) (h : g.configPaths = []) :
    (registerDefaults g).configPaths = ["./configs", "."] := by
  unfold registerDefaults
  simp only [Viper.SetConfigName, Viper.SetConfigType, Viper.AddConfigPath, Viper.SetDefault, h]
  rfl

/-- C11: `Load` fails rather than falling back to the defaults. When reading the configuration
file fails, or when decoding fails, `Load` returns that error and no `Config`, although the
eighteen defaults are registered by then (and would decode to a complete `Config` by
themselves); an error of `Load` has no other cause; `Load` returns a `Config` exactly when it
returns no error; with no file named `config` in `./configs` or `.` the error is that the file
was not found; and on an error of `Load`, `main` exits with status 1 having made no call but
`config.Load`, so before the logger, the database, Redis or any server is initialised. -/
theorem load_fails_without_fallback (w : WeakDecode) (disk : Disk) (dbOk redisOk : Bool)
    (listen : Option Nat) (g : Viper) :
    (∀ err : LoadError, ((registerDefaults g).ReadInConfig disk).1 = .error err →
        (Load w disk g).1 = .error err ∧ returnedConfig (Load w disk g).1 = none ∧
        returnedError (Load w disk g).1 = some err) ∧
      (∀ (g2 : Viper) (err : LoadError),
        (registerDefaults g).ReadInConfig disk = (.ok (), g2) → g2.Unmarshal w = .error err →
        (Load w disk g).1 = .error err ∧ returnedConfig (Load w disk g).1 = none ∧
        returnedError (Load w disk g).1 = some err) ∧
      (∀ err : LoadError, (Load w disk g).1 = .error err →
        ((registerDefaults g).ReadInConfig disk).1 = .error err ∨
        ∃ g2 : Viper, (registerDefaults g).ReadInConfig disk = (.ok (), g2) ∧
          g2.Unmarshal w = .error err) ∧
      (Load w disk g).2.defaults = registeredDefaults ++ g.defaults ∧
      (registerDefaults Viper.fresh).Unmarshal w = .ok defaultConfig ∧
      ((returnedConfig (Load w disk g).1).isSome = true ↔
        returnedError (Load w disk g).1 = none) ∧
      (g.configPaths = [] → disk "./configs" "config" = none → disk "." "config" = none →
        (Load w disk g).1 = .error .ConfigFileNotFound) ∧
      (∀ err : LoadError, (Load w disk g).1 = .error err →
        (main w disk dbOk redisOk listen g).outcome = .exited 1 ∧
        (main w disk dbOk redisOk listen g).calls = [⟨"config.Load", []⟩] ∧
        ∀ c ∈ (main w disk dbOk redisOk listen g).calls, c.callee ∉ initialisers) := by
  refine ⟨?_, ?_, load_error_cases w disk g, load_defaults_registered w disk g, rfl, ?_, ?_, ?_⟩
  · intro err h
    have hl := load_read_error w disk g err h
    rw [hl]
    exact ⟨rfl, rfl, rfl⟩
  · intro g2 err hread hum
    have hl := load_unmarshal_error w disk g g2 err hread hum
    rw [hl]
    exact ⟨rfl, rfl, rfl⟩
  · cases (Load w disk g).1 with
    | error e => simp [returnedConfig, returnedError]
    | ok c => simp [returnedConfig, returnedError]
  · intro hnil h1 h2
    apply load_read_error
    apply readInConfig_not_found
    rw [registerDefaults_paths_of_nil g hnil, (registerDefaults_name_type g).1]
    intro dir hdir
    simp only [List.mem_cons, List.mem_singleton, List.not_mem_nil, or_false] at hdir
    rcases hdir with rfl | rfl
    · exact h1
    · exact h2
  · intro err h
    rw [main_of_error w disk dbOk redisOk listen g err h]
    refine ⟨rfl, rfl, ?_⟩
    intro c hc
    simp only [List.mem_singleton] at hc
    subst hc
    decide

/-- Witness for C11: without any configuration file `Load` returns the not-found error from the
fresh instance and `main` exits with status 1 after the single call `config.Load`; with a file
whose `server.port` is a text that the decoder cannot convert, `Load` returns the decoding
error. -/
theorem load_fails_without_fallback_witness :
    (Load strictDecode emptyDisk Viper.fresh).1 = .error .ConfigFileNotFound ∧
      ((main strictDecode emptyDisk true true none Viper.fresh).outcome = .exited 1 ∧
        (main strictDecode emptyDisk true true none Viper.fresh).calls =
          [⟨"config.Load", []⟩] ∧
        ∀ c ∈ (main strictDecode emptyDisk true true none Viper.fresh).calls,
          c.callee ∉ initialisers) ∧
      ((Load strictDecode (diskWith [("server.port", .str "abc")]) Viper.fresh).1 =
          .error (.DecodeFailed "server.port") ∧
        returnedConfig (Load strictDecode (diskWith [("server.port", .str "abc")])
          Viper.fresh).1 = none ∧
        returnedError (Load strictDecode (diskWith [("server.port", .str "abc")])
          Viper.fresh).1 = some (.DecodeFailed "server.port")) :=
  ⟨(load_fails_without_fallback strictDecode emptyDisk true true none
      Viper.fresh).2.2.2.2.2.2.1 rfl rfl rfl,
   (load_fails_without_fallback strictDecode emptyDisk true true none
      Viper.fresh).2.2.2.2.2.2.2 .ConfigFileNotFound rfl,
   (load_fails_without_fallback strictDecode (diskWith [("server.port", .str "abc")]) true true
      none Viper.fresh).2.1
      { registerDefaults Viper.fresh with
        config := fun key => ([("server.port", .str "abc")] : List (String × Value)).lookup key }
      (.DecodeFailed "server.port") rfl rfl⟩

end Avits
